import Mathlib

/-!
Verification of the email date normalization subsystem
(`src/nodes/Imap/utils/dateParser.ts`).

The TypeScript source is a pure string-to-string transformer built on the
JavaScript runtime's date facilities.  This development shallowly embeds:

* the proleptic Gregorian calendar arithmetic that ECMA-262 prescribes for
  `Date` (`Day`, `TimeWithinDay`, `YearFromTime`, `MonthFromTime`, ...),
  with instants as `Int` milliseconds since the Unix epoch;
* `Date.prototype.toISOString` (ECMA-262 21.4.4.36, including expanded
  six-digit years outside 0000..9999);
* the host `new Date(string)` text interpreter, modelled as the ECMA-262
  Date Time String Format plus the RFC 2822 shape that the repository
  documents the generic recognizer to handle
  (`"Wed, 03 Dec 2025 06:57:11 +0100 (CET)"`-style).  ECMA-262 interprets
  date-time strings without a UTC offset as host-local time; the host clock
  is modelled as a fixed-offset zone, passed everywhere as a `tz : Int`
  parameter (minutes east of UTC);
* the six recognizers of `dateParsers`, the `parseEmailDate` driver loop
  (including its per-recognizer exception swallowing, via `Except`), and
  `convertToCRTimezone` with `Intl.DateTimeFormat` for `Europe/Prague`
  modelled by the EU daylight-saving rule in force since 1996 (summer time
  from 01:00 UTC on the last Sunday of March to 01:00 UTC on the last
  Sunday of October, offsets +60/+120 minutes), applied uniformly.
-/

/-! ## JavaScript primitive string helpers -/

/-- The JavaScript `\s` / `String.prototype.trim` whitespace set
(WhiteSpace and LineTerminator code points). -/
def jsWs (c : Char) : Bool :=
  c = ' ' ∨ c = '\t' ∨ c = '\n' ∨ c = '\r' ∨ c = '\x0b' ∨ c = '\x0c' ∨
  c = ' ' ∨ c = ' ' ∨ (' ' ≤ c ∧ c ≤ ' ') ∨
  c = ' ' ∨ c = ' ' ∨ c = ' ' ∨ c = ' ' ∨
  c = '　' ∨ c = '﻿'

/-- `String.prototype.trim` on a character list. -/
def jsTrim (l : List Char) : List Char :=
  ((l.dropWhile jsWs).reverse.dropWhile jsWs).reverse

/-- ASCII decimal digit test (JavaScript regex `\d`). -/
def isDig (c : Char) : Bool := '0' ≤ c ∧ c ≤ '9'

/-- JavaScript regex `\w`: ASCII letters, digits and underscore. -/
def isWord (c : Char) : Bool :=
  ('a' ≤ c ∧ c ≤ 'z') ∨ ('A' ≤ c ∧ c ≤ 'Z') ∨ isDig c ∨ c = '_'

/-- Numeric value of a digit string (the exact value; JavaScript
`parseInt` agrees with it whenever the value is compared against bounds
below 2^53, which is the only use made of it here). -/
def digitsVal (l : List Char) : Nat :=
  l.foldl (fun a c => a * 10 + (c.toNat - 48)) 0

/-- Greedy run of ASCII digits (maximal-munch `\d+` / counted digit
groups whose regex context is always followed by a non-digit). -/
def takeDigs : List Char → List Char × List Char
  | [] => ([], [])
  | c :: cs =>
    if isDig c then
      let p := takeDigs cs
      (c :: p.1, p.2)
    else ([], c :: cs)

/-- Greedy run of `\w` word characters. -/
def takeWords : List Char → List Char × List Char
  | [] => ([], [])
  | c :: cs =>
    if isWord c then
      let p := takeWords cs
      (c :: p.1, p.2)
    else ([], c :: cs)

/-- The ASCII digit character for a value below ten. -/
def digCh (n : Nat) : Char := Char.ofNat (48 + n)

/-- Two-digit zero-padded decimal numeral. -/
def pad2 (n : Nat) : List Char := [digCh (n / 10 % 10), digCh (n % 10)]

/-- Three-digit zero-padded decimal numeral. -/
def pad3 (n : Nat) : List Char :=
  [digCh (n / 100 % 10), digCh (n / 10 % 10), digCh (n % 10)]

/-- Four-digit zero-padded decimal numeral. -/
def pad4 (n : Nat) : List Char :=
  [digCh (n / 1000 % 10), digCh (n / 100 % 10), digCh (n / 10 % 10),
   digCh (n % 10)]

/-- Six-digit zero-padded decimal numeral (ECMA-262 expanded years). -/
def pad6 (n : Nat) : List Char :=
  [digCh (n / 100000 % 10), digCh (n / 10000 % 10), digCh (n / 1000 % 10),
   digCh (n / 100 % 10), digCh (n / 10 % 10), digCh (n % 10)]

/-! ## Proleptic Gregorian calendar arithmetic (ECMA-262 21.4.1) -/

/-- Gregorian leap-year test (ECMA-262 `DaysInYear`). -/
def isLeap (y : Int) : Bool :=
  decide ((y % 4 = 0 ∧ ¬ y % 100 = 0) ∨ y % 400 = 0)

/-- Days in a Gregorian year. -/
def daysInYear (y : Int) : Int := if isLeap y then 366 else 365

/-- Cumulative days before month `m` (1..12) in a year. -/
def daysBeforeMonth (leap : Bool) (m : Nat) : Int :=
  let L : Int := if leap then 1 else 0
  match m with
  | 1 => 0
  | 2 => 31
  | 3 => 59 + L
  | 4 => 90 + L
  | 5 => 120 + L
  | 6 => 151 + L
  | 7 => 181 + L
  | 8 => 212 + L
  | 9 => 243 + L
  | 10 => 273 + L
  | 11 => 304 + L
  | 12 => 334 + L
  | _ => 0

/-- Days in month `m` (1..12). -/
def daysInMonth (leap : Bool) (m : Nat) : Int :=
  match m with
  | 1 => 31
  | 2 => if leap then 29 else 28
  | 3 => 31
  | 4 => 30
  | 5 => 31
  | 6 => 30
  | 7 => 31
  | 8 => 31
  | 9 => 30
  | 10 => 31
  | 11 => 30
  | 12 => 31
  | _ => 0

/-- Day number (days since 1970-01-01) of January 1 of year `y`
(ECMA-262 `DayFromYear`, as a closed floor-division formula). -/
def yearStartDays (y : Int) : Int :=
  365 * (y - 1970) + (y - 1969) / 4 - (y - 1901) / 100 + (y - 1601) / 400

/-- Day number of the calendar date `y-m-d` (ECMA-262 `MakeDay`). -/
def daysFromCivil (y : Int) (m : Nat) (d : Int) : Int :=
  yearStartDays y + daysBeforeMonth (isLeap y) m + d - 1

theorem yearStartDays_succ (y : Int) :
    yearStartDays (y + 1) = yearStartDays y + daysInYear y := by
  simp only [yearStartDays, daysInYear, isLeap]
  split
  · next h =>
    rw [decide_eq_true_eq] at h
    omega
  · next h =>
    rw [decide_eq_true_eq] at h
    omega

theorem daysInYear_ge (y : Int) : 365 ≤ daysInYear y := by
  simp only [daysInYear]; split <;> omega

theorem daysInYear_le (y : Int) : daysInYear y ≤ 366 := by
  simp only [daysInYear]; split <;> omega

/-- Year search, upward from an anchor year, with explicit fuel (kept
structural so that the kernel can evaluate it): ECMA-262 `YearFromTime`
is the unique `y` with `yearStartDays y ≤ z < yearStartDays (y+1)`; this
computes it together with the day-of-year remainder. -/
def yearUpF : Nat → Int → Int → Int × Int
  | 0, y, z => (y, z)
  | fuel + 1, y, z =>
    if 0 ≤ z ∧ daysInYear y ≤ z then yearUpF fuel (y + 1) (z - daysInYear y)
    else (y, z)

/-- Year search, downward from an anchor year (negative remainders). -/
def yearDownF : Nat → Int → Int → Int × Int
  | 0, y, z => (y, z)
  | fuel + 1, y, z =>
    if z < 0 then yearDownF fuel (y - 1) (z + daysInYear (y - 1))
    else (y, z)

/-- ECMA-262 `YearFromTime` together with `DayWithinYear` (the fuel
bounds are sufficient: every loop pass moves at least 365 days). -/
def yearFromDay (z : Int) : Int × Int :=
  if 0 ≤ z then yearUpF (z.toNat / 365 + 1) 1970 z
  else yearDownF ((-z).toNat / 365 + 1) 1970 z

theorem yearUpF_inv (fuel : Nat) : ∀ y z : Int, 0 ≤ z → z < 365 * (fuel : Int) + 365 →
    yearStartDays (yearUpF fuel y z).1 + (yearUpF fuel y z).2 = yearStartDays y + z ∧
    0 ≤ (yearUpF fuel y z).2 ∧ (yearUpF fuel y z).2 < daysInYear (yearUpF fuel y z).1 := by
  induction fuel with
  | zero =>
    intro y z hz hlt
    have hy := daysInYear_ge y
    simp only [yearUpF]
    exact ⟨by ring, hz, by omega⟩
  | succ n ih =>
    intro y z hz hlt
    have hy := daysInYear_ge y
    simp only [yearUpF]
    split
    · next h =>
      have hlt2 : z - daysInYear y < 365 * (n : Int) + 365 := by
        push_cast at hlt ⊢
        omega
      have hrec := ih (y + 1) (z - daysInYear y) (by omega) hlt2
      refine ⟨?_, hrec.2.1, hrec.2.2⟩
      rw [hrec.1, yearStartDays_succ]
      ring
    · next h =>
      dsimp only
      exact ⟨by ring, hz, by omega⟩

theorem yearDownF_stop (fuel : Nat) (y z : Int) (hz : 0 ≤ z) :
    yearDownF fuel y z = (y, z) := by
  cases fuel with
  | zero => rfl
  | succ n => simp only [yearDownF, if_neg (by omega : ¬ z < 0)]

theorem yearDownF_inv (fuel : Nat) : ∀ y z : Int, z < 0 → -z ≤ 365 * (fuel : Int) →
    yearStartDays (yearDownF fuel y z).1 + (yearDownF fuel y z).2 = yearStartDays y + z ∧
    0 ≤ (yearDownF fuel y z).2 ∧ (yearDownF fuel y z).2 < daysInYear (yearDownF fuel y z).1 := by
  induction fuel with
  | zero =>
    intro y z hz hle
    push_cast at hle
    omega
  | succ n ih =>
    intro y z hz hle
    have hy := daysInYear_ge (y - 1)
    have hy2 := daysInYear_le (y - 1)
    have hsucc := yearStartDays_succ (y - 1)
    rw [sub_add_cancel] at hsucc
    simp only [yearDownF, if_pos hz]
    by_cases hnext : z + daysInYear (y - 1) < 0
    · have hle2 : -(z + daysInYear (y - 1)) ≤ 365 * (n : Int) := by
        push_cast at hle ⊢
        omega
      have hrec := ih (y - 1) (z + daysInYear (y - 1)) hnext hle2
      refine ⟨?_, hrec.2.1, hrec.2.2⟩
      rw [hrec.1]
      omega
    · rw [yearDownF_stop n (y - 1) _ (by omega)]
      dsimp only
      exact ⟨by omega, by omega, by omega⟩

/-- ECMA-262 `YearFromTime` satisfies its specification. -/
theorem yearFromDay_inv (z : Int) :
    yearStartDays (yearFromDay z).1 + (yearFromDay z).2 = z ∧
    0 ≤ (yearFromDay z).2 ∧ (yearFromDay z).2 < daysInYear (yearFromDay z).1 := by
  have h1970 : yearStartDays 1970 = 0 := by decide
  unfold yearFromDay
  split
  · next h =>
    have hlt : z < 365 * ((z.toNat / 365 + 1 : Nat) : Int) + 365 := by
      push_cast
      omega
    have := yearUpF_inv (z.toNat / 365 + 1) 1970 z h hlt
    omega
  · next h =>
    have hle : -z ≤ 365 * (((-z).toNat / 365 + 1 : Nat) : Int) := by
      push_cast
      omega
    have := yearDownF_inv ((-z).toNat / 365 + 1) 1970 z (by omega) hle
    omega

/-- ECMA-262 `MonthFromTime`/`DateFromTime`: month (1..12) and zero-based
day-in-month from a day-of-year remainder. -/
def monthFromDoy (leap : Bool) (doy : Int) : Nat × Int :=
  let L : Int := if leap then 1 else 0
  if doy < 31 then (1, doy)
  else if doy < 59 + L then (2, doy - 31)
  else if doy < 90 + L then (3, doy - (59 + L))
  else if doy < 120 + L then (4, doy - (90 + L))
  else if doy < 151 + L then (5, doy - (120 + L))
  else if doy < 181 + L then (6, doy - (151 + L))
  else if doy < 212 + L then (7, doy - (181 + L))
  else if doy < 243 + L then (8, doy - (212 + L))
  else if doy < 273 + L then (9, doy - (243 + L))
  else if doy < 304 + L then (10, doy - (273 + L))
  else if doy < 334 + L then (11, doy - (304 + L))
  else (12, doy - (334 + L))

set_option maxHeartbeats 1000000 in
theorem monthFromDoy_inv (leap : Bool) (doy : Int)
    (h0 : 0 ≤ doy) (h1 : doy < 365 + (if leap then 1 else 0)) :
    1 ≤ (monthFromDoy leap doy).1 ∧ (monthFromDoy leap doy).1 ≤ 12 ∧
    0 ≤ (monthFromDoy leap doy).2 ∧
    (monthFromDoy leap doy).2 < daysInMonth leap (monthFromDoy leap doy).1 ∧
    daysBeforeMonth leap (monthFromDoy leap doy).1 + (monthFromDoy leap doy).2 = doy := by
  cases leap
  case false =>
    have hA1 : daysInMonth false 1 = 31 := rfl
    have hB1 : daysBeforeMonth false 1 = 0 := rfl
    have hA2 : daysInMonth false 2 = 28 := rfl
    have hB2 : daysBeforeMonth false 2 = 31 := rfl
    have hA3 : daysInMonth false 3 = 31 := rfl
    have hB3 : daysBeforeMonth false 3 = 59 := rfl
    have hA4 : daysInMonth false 4 = 30 := rfl
    have hB4 : daysBeforeMonth false 4 = 90 := rfl
    have hA5 : daysInMonth false 5 = 31 := rfl
    have hB5 : daysBeforeMonth false 5 = 120 := rfl
    have hA6 : daysInMonth false 6 = 30 := rfl
    have hB6 : daysBeforeMonth false 6 = 151 := rfl
    have hA7 : daysInMonth false 7 = 31 := rfl
    have hB7 : daysBeforeMonth false 7 = 181 := rfl
    have hA8 : daysInMonth false 8 = 31 := rfl
    have hB8 : daysBeforeMonth false 8 = 212 := rfl
    have hA9 : daysInMonth false 9 = 30 := rfl
    have hB9 : daysBeforeMonth false 9 = 243 := rfl
    have hA10 : daysInMonth false 10 = 31 := rfl
    have hB10 : daysBeforeMonth false 10 = 273 := rfl
    have hA11 : daysInMonth false 11 = 30 := rfl
    have hB11 : daysBeforeMonth false 11 = 304 := rfl
    have hA12 : daysInMonth false 12 = 31 := rfl
    have hB12 : daysBeforeMonth false 12 = 334 := rfl
    simp only [if_neg Bool.false_ne_true] at h1
    by_cases c1 : doy < 31
    · have hp : monthFromDoy false doy = (1, doy) := by
        simp only [monthFromDoy, if_neg Bool.false_ne_true]
        rw [if_pos c1]
      rw [hp]; dsimp only; omega
    by_cases c2 : doy < 59 + 0
    · have hp : monthFromDoy false doy = (2, doy - 31) := by
        simp only [monthFromDoy, if_neg Bool.false_ne_true]
        rw [if_neg c1, if_pos c2]
      rw [hp]; dsimp only; omega
    by_cases c3 : doy < 90 + 0
    · have hp : monthFromDoy false doy = (3, doy - (59 + 0)) := by
        simp only [monthFromDoy, if_neg Bool.false_ne_true]
        rw [if_neg c1, if_neg c2, if_pos c3]
      rw [hp]; dsimp only; omega
    by_cases c4 : doy < 120 + 0
    · have hp : monthFromDoy false doy = (4, doy - (90 + 0)) := by
        simp only [monthFromDoy, if_neg Bool.false_ne_true]
        rw [if_neg c1, if_neg c2, if_neg c3, if_pos c4]
      rw [hp]; dsimp only; omega
    by_cases c5 : doy < 151 + 0
    · have hp : monthFromDoy false doy = (5, doy - (120 + 0)) := by
        simp only [monthFromDoy, if_neg Bool.false_ne_true]
        rw [if_neg c1, if_neg c2, if_neg c3, if_neg c4, if_pos c5]
      rw [hp]; dsimp only; omega
    by_cases c6 : doy < 181 + 0
    · have hp : monthFromDoy false doy = (6, doy - (151 + 0)) := by
        simp only [monthFromDoy, if_neg Bool.false_ne_true]
        rw [if_neg c1, if_neg c2, if_neg c3, if_neg c4, if_neg c5, if_pos c6]
      rw [hp]; dsimp only; omega
    by_cases c7 : doy < 212 + 0
    · have hp : monthFromDoy false doy = (7, doy - (181 + 0)) := by
        simp only [monthFromDoy, if_neg Bool.false_ne_true]
        rw [if_neg c1, if_neg c2, if_neg c3, if_neg c4, if_neg c5, if_neg c6, if_pos c7]
      rw [hp]; dsimp only; omega
    by_cases c8 : doy < 243 + 0
    · have hp : monthFromDoy false doy = (8, doy - (212 + 0)) := by
        simp only [monthFromDoy, if_neg Bool.false_ne_true]
        rw [if_neg c1, if_neg c2, if_neg c3, if_neg c4, if_neg c5, if_neg c6, if_neg c7, if_pos c8]
      rw [hp]; dsimp only; omega
    by_cases c9 : doy < 273 + 0
    · have hp : monthFromDoy false doy = (9, doy - (243 + 0)) := by
        simp only [monthFromDoy, if_neg Bool.false_ne_true]
        rw [if_neg c1, if_neg c2, if_neg c3, if_neg c4, if_neg c5, if_neg c6, if_neg c7, if_neg c8, if_pos c9]
      rw [hp]; dsimp only; omega
    by_cases c10 : doy < 304 + 0
    · have hp : monthFromDoy false doy = (10, doy - (273 + 0)) := by
        simp only [monthFromDoy, if_neg Bool.false_ne_true]
        rw [if_neg c1, if_neg c2, if_neg c3, if_neg c4, if_neg c5, if_neg c6, if_neg c7, if_neg c8, if_neg c9, if_pos c10]
      rw [hp]; dsimp only; omega
    by_cases c11 : doy < 334 + 0
    · have hp : monthFromDoy false doy = (11, doy - (304 + 0)) := by
        simp only [monthFromDoy, if_neg Bool.false_ne_true]
        rw [if_neg c1, if_neg c2, if_neg c3, if_neg c4, if_neg c5, if_neg c6, if_neg c7, if_neg c8, if_neg c9, if_neg c10, if_pos c11]
      rw [hp]; dsimp only; omega
    have hp : monthFromDoy false doy = (12, doy - (334 + 0)) := by
      simp only [monthFromDoy, if_neg Bool.false_ne_true]
      rw [if_neg c1, if_neg c2, if_neg c3, if_neg c4, if_neg c5, if_neg c6, if_neg c7, if_neg c8, if_neg c9, if_neg c10, if_neg c11]
    rw [hp]; dsimp only; omega
  case true =>
    have hA1 : daysInMonth true 1 = 31 := rfl
    have hB1 : daysBeforeMonth true 1 = 0 := rfl
    have hA2 : daysInMonth true 2 = 29 := rfl
    have hB2 : daysBeforeMonth true 2 = 31 := rfl
    have hA3 : daysInMonth true 3 = 31 := rfl
    have hB3 : daysBeforeMonth true 3 = 60 := rfl
    have hA4 : daysInMonth true 4 = 30 := rfl
    have hB4 : daysBeforeMonth true 4 = 91 := rfl
    have hA5 : daysInMonth true 5 = 31 := rfl
    have hB5 : daysBeforeMonth true 5 = 121 := rfl
    have hA6 : daysInMonth true 6 = 30 := rfl
    have hB6 : daysBeforeMonth true 6 = 152 := rfl
    have hA7 : daysInMonth true 7 = 31 := rfl
    have hB7 : daysBeforeMonth true 7 = 182 := rfl
    have hA8 : daysInMonth true 8 = 31 := rfl
    have hB8 : daysBeforeMonth true 8 = 213 := rfl
    have hA9 : daysInMonth true 9 = 30 := rfl
    have hB9 : daysBeforeMonth true 9 = 244 := rfl
    have hA10 : daysInMonth true 10 = 31 := rfl
    have hB10 : daysBeforeMonth true 10 = 274 := rfl
    have hA11 : daysInMonth true 11 = 30 := rfl
    have hB11 : daysBeforeMonth true 11 = 305 := rfl
    have hA12 : daysInMonth true 12 = 31 := rfl
    have hB12 : daysBeforeMonth true 12 = 335 := rfl
    simp only [if_true] at h1
    by_cases c1 : doy < 31
    · have hp : monthFromDoy true doy = (1, doy) := by
        simp only [monthFromDoy, if_true]
        rw [if_pos c1]
      rw [hp]; dsimp only; omega
    by_cases c2 : doy < 59 + 1
    · have hp : monthFromDoy true doy = (2, doy - 31) := by
        simp only [monthFromDoy, if_true]
        rw [if_neg c1, if_pos c2]
      rw [hp]; dsimp only; omega
    by_cases c3 : doy < 90 + 1
    · have hp : monthFromDoy true doy = (3, doy - (59 + 1)) := by
        simp only [monthFromDoy, if_true]
        rw [if_neg c1, if_neg c2, if_pos c3]
      rw [hp]; dsimp only; omega
    by_cases c4 : doy < 120 + 1
    · have hp : monthFromDoy true doy = (4, doy - (90 + 1)) := by
        simp only [monthFromDoy, if_true]
        rw [if_neg c1, if_neg c2, if_neg c3, if_pos c4]
      rw [hp]; dsimp only; omega
    by_cases c5 : doy < 151 + 1
    · have hp : monthFromDoy true doy = (5, doy - (120 + 1)) := by
        simp only [monthFromDoy, if_true]
        rw [if_neg c1, if_neg c2, if_neg c3, if_neg c4, if_pos c5]
      rw [hp]; dsimp only; omega
    by_cases c6 : doy < 181 + 1
    · have hp : monthFromDoy true doy = (6, doy - (151 + 1)) := by
        simp only [monthFromDoy, if_true]
        rw [if_neg c1, if_neg c2, if_neg c3, if_neg c4, if_neg c5, if_pos c6]
      rw [hp]; dsimp only; omega
    by_cases c7 : doy < 212 + 1
    · have hp : monthFromDoy true doy = (7, doy - (181 + 1)) := by
        simp only [monthFromDoy, if_true]
        rw [if_neg c1, if_neg c2, if_neg c3, if_neg c4, if_neg c5, if_neg c6, if_pos c7]
      rw [hp]; dsimp only; omega
    by_cases c8 : doy < 243 + 1
    · have hp : monthFromDoy true doy = (8, doy - (212 + 1)) := by
        simp only [monthFromDoy, if_true]
        rw [if_neg c1, if_neg c2, if_neg c3, if_neg c4, if_neg c5, if_neg c6, if_neg c7, if_pos c8]
      rw [hp]; dsimp only; omega
    by_cases c9 : doy < 273 + 1
    · have hp : monthFromDoy true doy = (9, doy - (243 + 1)) := by
        simp only [monthFromDoy, if_true]
        rw [if_neg c1, if_neg c2, if_neg c3, if_neg c4, if_neg c5, if_neg c6, if_neg c7, if_neg c8, if_pos c9]
      rw [hp]; dsimp only; omega
    by_cases c10 : doy < 304 + 1
    · have hp : monthFromDoy true doy = (10, doy - (273 + 1)) := by
        simp only [monthFromDoy, if_true]
        rw [if_neg c1, if_neg c2, if_neg c3, if_neg c4, if_neg c5, if_neg c6, if_neg c7, if_neg c8, if_neg c9, if_pos c10]
      rw [hp]; dsimp only; omega
    by_cases c11 : doy < 334 + 1
    · have hp : monthFromDoy true doy = (11, doy - (304 + 1)) := by
        simp only [monthFromDoy, if_true]
        rw [if_neg c1, if_neg c2, if_neg c3, if_neg c4, if_neg c5, if_neg c6, if_neg c7, if_neg c8, if_neg c9, if_neg c10, if_pos c11]
      rw [hp]; dsimp only; omega
    have hp : monthFromDoy true doy = (12, doy - (334 + 1)) := by
      simp only [monthFromDoy, if_true]
      rw [if_neg c1, if_neg c2, if_neg c3, if_neg c4, if_neg c5, if_neg c6, if_neg c7, if_neg c8, if_neg c9, if_neg c10, if_neg c11]
    rw [hp]; dsimp only; omega

/-- ECMA-262 calendar decomposition of a day number: year, month (1..12)
and day of month (1-based). -/
def civilFromDay (z : Int) : Int × Nat × Int :=
  let p := yearFromDay z
  let q := monthFromDoy (isLeap p.1) p.2
  (p.1, q.1, q.2 + 1)

theorem daysInYear_eq (y : Int) :
    daysInYear y = 365 + (if isLeap y then (1 : Int) else 0) := by
  simp only [daysInYear]; split <;> simp_all

/-- Field bounds of the calendar decomposition. -/
theorem civilFromDay_bounds (z : Int) :
    1 ≤ (civilFromDay z).2.1 ∧ (civilFromDay z).2.1 ≤ 12 ∧
    1 ≤ (civilFromDay z).2.2 ∧
    (civilFromDay z).2.2 ≤ daysInMonth (isLeap (civilFromDay z).1) (civilFromDay z).2.1 := by
  have hy := yearFromDay_inv z
  have hm := monthFromDoy_inv (isLeap (yearFromDay z).1) (yearFromDay z).2
    hy.2.1 (by rw [← daysInYear_eq]; exact hy.2.2)
  simp only [civilFromDay]
  exact ⟨by omega, hm.2.1, by omega, by omega⟩

/-- Round trip: recomposing the decomposed calendar date gives back the
day number (the direction `parseEmailDate` needs for re-parsing its own
canonical output). -/
theorem daysFromCivil_civilFromDay (z : Int) :
    daysFromCivil (civilFromDay z).1 (civilFromDay z).2.1 (civilFromDay z).2.2 = z := by
  have hy := yearFromDay_inv z
  have hm := monthFromDoy_inv (isLeap (yearFromDay z).1) (yearFromDay z).2
    hy.2.1 (by rw [← daysInYear_eq]; exact hy.2.2)
  simp only [civilFromDay, daysFromCivil]
  omega

/-! ## Instant decomposition and `Date.prototype.toISOString` -/

/-- Three-letter month abbreviation table (`Intl` short month, en-US). -/
def monthName (m : Nat) : List Char :=
  match m with
  | 1 => ['J', 'a', 'n']
  | 2 => ['F', 'e', 'b']
  | 3 => ['M', 'a', 'r']
  | 4 => ['A', 'p', 'r']
  | 5 => ['M', 'a', 'y']
  | 6 => ['J', 'u', 'n']
  | 7 => ['J', 'u', 'l']
  | 8 => ['A', 'u', 'g']
  | 9 => ['S', 'e', 'p']
  | 10 => ['O', 'c', 't']
  | 11 => ['N', 'o', 'v']
  | 12 => ['D', 'e', 'c']
  | _ => []

/-- Three-letter weekday abbreviation table, index 0 = Sunday
(ECMA-262 `WeekDay`). -/
def weekdayName (w : Nat) : List Char :=
  match w with
  | 0 => ['S', 'u', 'n']
  | 1 => ['M', 'o', 'n']
  | 2 => ['T', 'u', 'e']
  | 3 => ['W', 'e', 'd']
  | 4 => ['T', 'h', 'u']
  | 5 => ['F', 'r', 'i']
  | 6 => ['S', 'a', 't']
  | _ => []

/-- ECMA-262 `Date.prototype.toISOString` (21.4.4.36): four-digit year
for 0..9999, signed six-digit expanded year otherwise, always
milliseconds and a `Z` (zero UTC offset) suffix. -/
def toISOChars (t : Int) : List Char :=
  let q := t / 86400000
  let r := (t % 86400000).toNat
  let c := civilFromDay q
  let yearPart :=
    if 0 ≤ c.1 ∧ c.1 ≤ 9999 then pad4 c.1.toNat
    else if c.1 < 0 then '-' :: pad6 (-c.1).toNat
    else '+' :: pad6 c.1.toNat
  yearPart ++ '-' :: pad2 c.2.1 ++ '-' :: pad2 c.2.2.toNat ++
    'T' :: pad2 (r / 3600000) ++ ':' :: pad2 (r % 3600000 / 60000) ++
    ':' :: pad2 (r % 60000 / 1000) ++ '.' :: pad3 (r % 1000) ++ ['Z']

/-- String form of `toISOChars`. -/
def toISO (t : Int) : String := String.mk (toISOChars t)

/-! ## The host `new Date(string)` interpreter

JavaScript date-from-string construction is modelled as: the ECMA-262
Date Time String Format (including expanded years and the rule that a
date-time without UTC offset is host-local while a date-only form is
UTC), plus the RFC 2822 `[Www, ] DD Mon YYYY HH:MM[:SS] [+-HHMM]
[(comment)]` shape that the repository's doc comment documents the
generic recognizer to cover.  Further engine-specific leniencies of the
legacy V8 text scanner are intentionally out of the modelled grammar. -/

/-- Calendar/time fields read from a date string, before validation. -/
structure JsF where
  y : Int
  mo : Nat
  d : Int
  h : Int
  mi : Int
  s : Int
  ms : Int
  off : Option Int
  dateOnly : Bool
deriving Repr, DecidableEq

/-- Digit group of exactly `n` digits (maximal munch plus length check;
all uses are regex contexts followed by a non-digit). -/
def exactDigs (n : Nat) (l : List Char) : Option (Nat × List Char) :=
  let p := takeDigs l
  if p.1.length = n then some (digitsVal p.1, p.2) else none

/-- Digit group of one or two digits (`\d{1,2}` followed by a
non-digit). -/
def digs12 (l : List Char) : Option (Nat × List Char) :=
  let p := takeDigs l
  if p.1.length = 1 ∨ p.1.length = 2 then some (digitsVal p.1, p.2) else none

/-- Mandatory whitespace run (`\s+`). -/
def wsPlus (l : List Char) : Option (List Char) :=
  match l with
  | c :: rest => if jsWs c then some (rest.dropWhile jsWs) else none
  | [] => none

/-- UTC-offset suffix of an ISO string: `Z`, `+HH:MM`/`-HH:MM` or
`+HHMM`/`-HHMM`; the empty remainder means no offset. -/
def isoOff (l : List Char) : Option (Option Int) :=
  match l with
  | [] => some none
  | ['Z'] => some (some 0)
  | c :: rest =>
    if c = '+' ∨ c = '-' then
      let sgn : Int := if c = '+' then 1 else -1
      let p := takeDigs rest
      if p.1.length = 4 ∧ p.2 = [] then
        let hh := digitsVal (p.1.take 2)
        let mm := digitsVal (p.1.drop 2)
        if hh ≤ 23 ∧ mm ≤ 59 then some (some (sgn * (hh * 60 + mm))) else none
      else if p.1.length = 2 then
        match p.2 with
        | ':' :: rest2 =>
          match exactDigs 2 rest2 with
          | some (mm, []) =>
            if p.1.length = 2 ∧ digitsVal p.1 ≤ 23 ∧ mm ≤ 59 then
              some (some (sgn * (digitsVal p.1 * 60 + mm)))
            else none
          | _ => none
        | _ => none
      else none
    else none

/-- Time-of-day tail of an ISO string: `HH:MM[:SS[.fff...]]` plus the
offset suffix. -/
def isoTime (l : List Char) : Option (Nat × Nat × Nat × Nat × Option Int) :=
  match exactDigs 2 l with
  | none => none
  | some (h, l1) =>
    match l1 with
    | ':' :: l2 =>
      match exactDigs 2 l2 with
      | none => none
      | some (mi, l3) =>
        let sres : Option (Nat × List Char) :=
          match l3 with
          | ':' :: l3a =>
            match exactDigs 2 l3a with
            | some (sv, l3b) => some (sv, l3b)
            | none => none
          | _ => some (0, l3)
        match sres with
        | none => none
        | some (s, l5) =>
          let msres : Option (Nat × List Char) :=
            match l5 with
            | '.' :: l5a =>
              let p := takeDigs l5a
              if p.1.length = 0 then none
              else some (digitsVal ((p.1 ++ ['0', '0', '0']).take 3), p.2)
            | _ => some (0, l5)
          match msres with
          | none => none
          | some (msv, l6) =>
            match isoOff l6 with
            | some off => some (h, mi, s, msv, off)
            | none => none
    | _ => none

/-- Month/day/time part of the ISO reader, after the year. -/
def isoTail (y : Int) (rest : List Char) : Option JsF :=
  match rest with
  | [] => some ⟨y, 1, 1, 0, 0, 0, 0, none, true⟩
  | '-' :: l2 =>
    match exactDigs 2 l2 with
    | none => none
    | some (mo, l3) =>
      match l3 with
      | [] => some ⟨y, mo, 1, 0, 0, 0, 0, none, true⟩
      | '-' :: l4 =>
        match exactDigs 2 l4 with
        | none => none
        | some (d, l5) =>
          match l5 with
          | [] => some ⟨y, mo, (d : Int), 0, 0, 0, 0, none, true⟩
          | 'T' :: l6 =>
            match isoTime l6 with
            | some (h, mi, s, msv, off) =>
              some ⟨y, mo, (d : Int), (h : Int), (mi : Int), (s : Int), (msv : Int), off, false⟩
            | none => none
          | _ => none
      | _ => none
  | _ => none

/-- ECMA-262 Date Time String Format reader: `YYYY[-MM[-DD]]` or signed
expanded `±YYYYYY...`, optionally followed by `T` and a time.  Returns
unvalidated fields. -/
def isoM (l0 : List Char) : Option JsF :=
  let c0 := l0.headD 'x'
  let (ysgn, l1) :=
    if c0 = '+' then (some (1 : Int), l0.tail)
    else if c0 = '-' then (some (-1 : Int), l0.tail)
    else ((none : Option Int), l0)
  let p := takeDigs l1
  let okLen : Bool :=
    match ysgn with
    | none => p.1.length == 4
    | some _ => p.1.length == 6
  if okLen = false then none
  else if ysgn = some (-1) ∧ digitsVal p.1 = 0 then none
  else
    let y : Int := (ysgn.getD 1) * (digitsVal p.1 : Int)
    isoTail y p.2

/-- Case-insensitive three-letter month-name lookup. -/
def monthNum (l : List Char) : Option Nat :=
  let w := l.map Char.toLower
  if w = ['j', 'a', 'n'] then some 1
  else if w = ['f', 'e', 'b'] then some 2
  else if w = ['m', 'a', 'r'] then some 3
  else if w = ['a', 'p', 'r'] then some 4
  else if w = ['m', 'a', 'y'] then some 5
  else if w = ['j', 'u', 'n'] then some 6
  else if w = ['j', 'u', 'l'] then some 7
  else if w = ['a', 'u', 'g'] then some 8
  else if w = ['s', 'e', 'p'] then some 9
  else if w = ['o', 'c', 't'] then some 10
  else if w = ['n', 'o', 'v'] then some 11
  else if w = ['d', 'e', 'c'] then some 12
  else none

/-- Case-insensitive three-letter weekday-name test. -/
def isWdName (l : List Char) : Bool :=
  let w := l.map Char.toLower
  w = ['s', 'u', 'n'] ∨ w = ['m', 'o', 'n'] ∨ w = ['t', 'u', 'e'] ∨
  w = ['w', 'e', 'd'] ∨ w = ['t', 'h', 'u'] ∨ w = ['f', 'r', 'i'] ∨
  w = ['s', 'a', 't']

/-- Optional RFC 2822 leading `Www,` day-of-week (comma required, as in
the RFC 2822 `date-time` production). -/
def stripWd (l : List Char) : List Char :=
  if (l.drop 3).headD 'x' = ',' ∧ isWdName (l.take 3) then
    (l.drop 4).dropWhile jsWs
  else l

/-- Optional RFC 2822 time of day: `ws+ H:MM[:SS]`. -/
def rfcTime (l : List Char) : Option (Nat × Nat × Nat × List Char) :=
  match wsPlus l with
  | none => none
  | some l1 =>
    match digs12 l1 with
    | none => none
    | some (h, l2) =>
      match l2 with
      | ':' :: l3 =>
        match exactDigs 2 l3 with
        | none => none
        | some (mi, l4) =>
          match l4 with
          | ':' :: l5 =>
            match exactDigs 2 l5 with
            | none => none
            | some (s, l6) => some (h, mi, s, l6)
          | _ => some (h, mi, 0, l4)
      | _ => none

/-- Optional RFC 2822 zone: `ws+ [+-]HHMM`. -/
def rfcOff (l : List Char) : Option (Int × List Char) :=
  match wsPlus l with
  | none => none
  | some l1 =>
    match l1 with
    | c :: rest =>
      if c = '+' ∨ c = '-' then
        let sgn : Int := if c = '+' then 1 else -1
        let p := takeDigs rest
        if p.1.length = 4 then
          let hh := digitsVal (p.1.take 2)
          let mm := digitsVal (p.1.drop 2)
          if hh ≤ 23 ∧ mm ≤ 59 then some (sgn * (hh * 60 + mm), p.2) else none
        else none
      else none
    | [] => none

/-- Optional trailing parenthetical comment: `ws+ ( not-rparen* )`. -/
def rfcComment (l : List Char) : Option (List Char) :=
  match wsPlus l with
  | none => none
  | some l1 =>
    match l1 with
    | '(' :: rest =>
      let p := rest.span (fun c => ¬ c = ')')
      match p.2 with
      | ')' :: l2 => some l2
      | _ => none
    | _ => none

/-- RFC 2822 date-time reader (`[Www, ] D Mon YYYY [H:MM[:SS]] [+-HHMM]
[(comment)]`), with the classic two-digit-year windowing applied to the
numeric year token.  No offset means host-local time.  Returns
unvalidated fields. -/
def rfcM (l0 : List Char) : Option JsF :=
  let l := stripWd l0
  match digs12 l with
  | none => none
  | some (d, l1) =>
    match wsPlus l1 with
    | none => none
    | some l2 =>
      match l2 with
      | a :: b :: c :: l3 =>
        match monthNum [a, b, c] with
        | none => none
        | some mo =>
          match wsPlus l3 with
          | none => none
          | some l4 =>
            match exactDigs 4 l4 with
            | none => none
            | some (yv, l5) =>
              let y : Int :=
                if yv < 50 then 2000 + yv
                else if yv < 100 then 1900 + yv
                else yv
              let tim :=
                match rfcTime l5 with
                | some (h, mi, s, l6) => ((h, mi, s), l6)
                | none => ((0, 0, 0), l5)
              let ofs :=
                match rfcOff tim.2 with
                | some (o, l7) => (some o, l7)
                | none => ((none : Option Int), tim.2)
              let l8 :=
                match rfcComment ofs.2 with
                | some l9 => l9
                | none => ofs.2
              if l8.all jsWs then
                some ⟨y, mo, (d : Int), (tim.1.1 : Int), (tim.1.2.1 : Int),
                      (tim.1.2.2 : Int), 0, ofs.1, false⟩
              else none
      | _ => none

/-- Field validation: real calendar day, minute/second/millisecond in
range, hour 0..23 or the ECMA `24:00:00.000` end-of-day form. -/
def validF (f : JsF) : Bool :=
  decide (1 ≤ f.mo ∧ f.mo ≤ 12) ∧
  decide (1 ≤ f.d ∧ f.d ≤ daysInMonth (isLeap f.y) f.mo) ∧
  decide (0 ≤ f.mi ∧ f.mi ≤ 59 ∧ 0 ≤ f.s ∧ f.s ≤ 59 ∧ 0 ≤ f.ms ∧ f.ms ≤ 999) ∧
  (decide (0 ≤ f.h ∧ f.h ≤ 23) ∨
   decide (f.h = 24 ∧ f.mi = 0 ∧ f.s = 0 ∧ f.ms = 0))

/-- ECMA-262 `MakeDate`: milliseconds of the field vector read as UTC. -/
def fieldsMs (f : JsF) : Int :=
  86400000 * daysFromCivil f.y f.mo f.d +
    3600000 * f.h + 60000 * f.mi + 1000 * f.s + f.ms

/-- Interpretation of read fields at host-zone offset `tz` (minutes east
of UTC): explicit offset wins, date-only forms are UTC, other offsetless
forms are host-local; result range-checked per ECMA `TimeClip`. -/
def interpF (tz : Int) (f : JsF) : Option Int :=
  if validF f then
    match f.off with
    | some o =>
      if -8640000000000000 ≤ fieldsMs f - 60000 * o ∧
          fieldsMs f - 60000 * o ≤ 8640000000000000 then
        some (fieldsMs f - 60000 * o)
      else none
    | none =>
      if -8640000000000000 ≤ fieldsMs f - 60000 * (if f.dateOnly then 0 else tz) ∧
          fieldsMs f - 60000 * (if f.dateOnly then 0 else tz) ≤ 8640000000000000 then
        some (fieldsMs f - 60000 * (if f.dateOnly then 0 else tz))
      else none
  else none

/-- Structural reading phase of `new Date(string)`: ISO format first,
otherwise the RFC 2822 shape. -/
def jsFieldsOf (l : List Char) : Option JsF :=
  match isoM l with
  | some f => some f
  | none => rfcM l

/-- The host `new Date(string)` / `Date.parse` model: trim, read fields,
validate and interpret at host offset `tz`; `none` is an invalid date
(`NaN` time value). -/
def jsDateParseMs (tz : Int) (l : List Char) : Option Int :=
  (jsFieldsOf (jsTrim l)).bind (interpF tz)

/-! ## The six `dateParsers` recognizers and the `parseEmailDate` loop -/

/-- `padDay`: `String.prototype.padStart(2, "0")` on a captured day. -/
def padDayL (l : List Char) : List Char :=
  if 2 ≤ l.length then l else List.replicate (2 - l.length) '0' ++ l

/-- `padTime`: `replace(/^(\d):/, "0$1:")` on a captured time. -/
def padTimeL (l : List Char) : List Char :=
  match l with
  | a :: ':' :: rest => if isDig a then '0' :: a :: ':' :: rest else a :: ':' :: rest
  | _ => l

/-- Captured `\w{3}` group followed by a non-word context. -/
def words3 (l : List Char) : Option (List Char × List Char) :=
  let p := takeWords l
  if p.1.length = 3 then some (p.1, p.2) else none

/-- Captured `\d{1,2}` group (raw digits). -/
def digsCap12 (l : List Char) : Option (List Char × List Char) :=
  let p := takeDigs l
  if p.1.length = 1 ∨ p.1.length = 2 then some (p.1, p.2) else none

/-- Captured `\d{4}` group (raw digits). -/
def digsCap4 (l : List Char) : Option (List Char × List Char) :=
  let p := takeDigs l
  if p.1.length = 4 then some (p.1, p.2) else none

/-- Captured `\d{1,2}:\d{2}:\d{2}` time group (raw text). -/
def timeCap (l : List Char) : Option (List Char × List Char) :=
  match digsCap12 l with
  | none => none
  | some (h, l1) =>
    match l1 with
    | ':' :: l2 =>
      let p := takeDigs l2
      if p.1.length = 2 then
        match p.2 with
        | ':' :: l3 =>
          let q := takeDigs l3
          if q.1.length = 2 then
            some (h ++ ':' :: p.1 ++ ':' :: q.1, q.2)
          else none
        | _ => none
      else none
    | _ => none

/-- Captured `[+-]\d{4}` zone group (raw text). -/
def offCap4 (l : List Char) : Option (List Char × List Char) :=
  match l with
  | c :: rest =>
    if c = '+' ∨ c = '-' then
      let p := takeDigs rest
      if p.1.length = 4 then some (c :: p.1, p.2) else none
    else none
  | [] => none

/-- Recognizer 2 structural match plus reassembly
(`/^(\w{3})\s+(\w{3})\s+(\d{1,2})\s+(\d{1,2}:\d{2}:\d{2})\s+(\d{4})$/`,
rebuilt as `Www, DD Mon YYYY HH:MM:SS +0000`). -/
def m2 (l : List Char) : Option (List Char) :=
  match words3 l with
  | none => none
  | some (dayName, l1) =>
    match wsPlus l1 with
    | none => none
    | some l2 =>
      match words3 l2 with
      | none => none
      | some (mon, l3) =>
        match wsPlus l3 with
        | none => none
        | some l4 =>
          match digsCap12 l4 with
          | none => none
          | some (day, l5) =>
            match wsPlus l5 with
            | none => none
            | some l6 =>
              match timeCap l6 with
              | none => none
              | some (tim, l7) =>
                match wsPlus l7 with
                | none => none
                | some l8 =>
                  match digsCap4 l8 with
                  | some (year, []) =>
                    some (dayName ++ ',' :: ' ' :: padDayL day ++ ' ' :: mon ++
                          ' ' :: year ++ ' ' :: padTimeL tim ++
                          [' ', '+', '0', '0', '0', '0'])
                  | _ => none

/-- Recognizer 3 structural match plus reassembly
(`/^(\d{1,2})\s+(\w{3})\s+(\d{4})\s+(\d{1,2}:\d{2}:\d{2})(?:\s+([+-]\d{4}))?$/`,
rebuilt as `DD Mon YYYY HH:MM:SS +ZZZZ` with `+0000` default). -/
def m3 (l : List Char) : Option (List Char) :=
  match digsCap12 l with
  | none => none
  | some (day, l1) =>
    match wsPlus l1 with
    | none => none
    | some l2 =>
      match words3 l2 with
      | none => none
      | some (mon, l3) =>
        match wsPlus l3 with
        | none => none
        | some l4 =>
          match digsCap4 l4 with
          | none => none
          | some (year, l5) =>
            match wsPlus l5 with
            | none => none
            | some l6 =>
              match timeCap l6 with
              | none => none
              | some (tim, l7) =>
                let tzres :=
                  match l7 with
                  | [] => some (['+', '0', '0', '0', '0'])
                  | _ =>
                    match wsPlus l7 with
                    | none => none
                    | some l8 =>
                      match offCap4 l8 with
                      | some (z, []) => some z
                      | _ => none
                match tzres with
                | none => none
                | some z =>
                  some (padDayL day ++ ' ' :: mon ++ ' ' :: year ++
                        ' ' :: padTimeL tim ++ ' ' :: z)

/-- Recognizer 6 structural match plus reassembly
(`/^(\w{3})\s+(\d{1,2})\s+(\d{4})\s+(\d{1,2}:\d{2}:\d{2})(?:\s+([+-]\d{4}))?$/`,
month name first, rebuilt like recognizer 3). -/
def m6 (l : List Char) : Option (List Char) :=
  match words3 l with
  | none => none
  | some (mon, l1) =>
    match wsPlus l1 with
    | none => none
    | some l2 =>
      match digsCap12 l2 with
      | none => none
      | some (day, l3) =>
        match wsPlus l3 with
        | none => none
        | some l4 =>
          match digsCap4 l4 with
          | none => none
          | some (year, l5) =>
            match wsPlus l5 with
            | none => none
            | some l6 =>
              match timeCap l6 with
              | none => none
              | some (tim, l7) =>
                let tzres :=
                  match l7 with
                  | [] => some (['+', '0', '0', '0', '0'])
                  | _ =>
                    match wsPlus l7 with
                    | none => none
                    | some l8 =>
                      match offCap4 l8 with
                      | some (z, []) => some z
                      | _ => none
                match tzres with
                | none => none
                | some z =>
                  some (padDayL day ++ ' ' :: mon ++ ' ' :: year ++
                        ' ' :: padTimeL tim ++ ' ' :: z)

/-- Captured `[+-]\d{2}:?\d{2}` zone group of recognizer 4 (raw text). -/
def offCapIso (l : List Char) : Option (List Char × List Char) :=
  match l with
  | c :: rest =>
    if c = '+' ∨ c = '-' then
      let p := takeDigs rest
      if p.1.length = 4 then some (c :: p.1, p.2)
      else if p.1.length = 2 then
        match p.2 with
        | ':' :: rest2 =>
          let q := takeDigs rest2
          if q.1.length = 2 then some (c :: p.1 ++ ':' :: q.1, q.2) else none
        | _ => none
      else none
    else none
  | [] => none

/-- Recognizer 4 structural match plus reassembly
(`/^(\d{4})[-\x2f](\d{1,2})[-\x2f](\d{1,2})[T\s](\d{1,2}):(\d{2}):(\d{2})(?:\.(\d+))?(?:Z|([+-]\d{2}:?\d{2}))?$/`,
rebuilt as a strict ISO string, `Z` when no zone was given). -/
def m4 (l : List Char) : Option (List Char) :=
  match digsCap4 l with
  | none => none
  | some (year, l1) =>
    match l1 with
    | s1 :: l2 =>
      if s1 = '-' ∨ s1 = '/' then
        match digsCap12 l2 with
        | none => none
        | some (mon, l3) =>
          match l3 with
          | s2 :: l4 =>
            if s2 = '-' ∨ s2 = '/' then
              match digsCap12 l4 with
              | none => none
              | some (day, l5) =>
                match l5 with
                | sep :: l6 =>
                  if sep = 'T' ∨ jsWs sep then
                    match digsCap12 l6 with
                    | none => none
                    | some (hour, l7) =>
                      match l7 with
                      | ':' :: l8 =>
                        let p := takeDigs l8
                        if p.1.length = 2 then
                          match p.2 with
                          | ':' :: l9 =>
                            let q := takeDigs l9
                            if q.1.length = 2 then
                              let fr :=
                                match q.2 with
                                | '.' :: l10 =>
                                  let r := takeDigs l10
                                  if r.1.length = 0 then none
                                  else some (some r.1, r.2)
                                | _ => some (none, q.2)
                              match fr with
                              | none => none
                              | some (millis, l11) =>
                                let zr :=
                                  match l11 with
                                  | [] => some (none : Option (List Char))
                                  | ['Z'] => some none
                                  | _ =>
                                    match offCapIso l11 with
                                    | some (z, []) => some (some z)
                                    | _ => none
                                match zr with
                                | none => none
                                | some tz =>
                                  let millisPart :=
                                    match millis with
                                    | some ds => '.' :: (ds ++ ['0', '0', '0']).take 3
                                    | none => []
                                  let tzPart :=
                                    match tz with
                                    | some z =>
                                      if z.contains ':' then z
                                      else z.take 3 ++ ':' :: z.drop 3
                                    | none => ['Z']
                                  some (year ++ '-' :: padDayL mon ++ '-' :: padDayL day ++
                                        'T' :: padDayL hour ++ ':' :: p.1 ++ ':' :: q.1 ++
                                        millisPart ++ tzPart)
                            else none
                          | _ => none
                        else none
                      | _ => none
                  else none
                | [] => none
            else none
          | [] => none
      else none
    | [] => none

/-- Recognizer 1: the generic `new Date(dateStr)` attempt. -/
def p1 (tz : Int) (l : List Char) : Option String :=
  (jsDateParseMs tz l).map toISO

/-- Recognizer 2 (`Www Mon DD H:MM:SS YYYY`, normalized then parsed). -/
def p2 (tz : Int) (l : List Char) : Option String :=
  (m2 l).bind (fun n => (jsDateParseMs tz n).map toISO)

/-- Recognizer 3 (`DD Mon YYYY H:MM:SS [+-HHMM]`, normalized then
parsed). -/
def p3 (tz : Int) (l : List Char) : Option String :=
  (m3 l).bind (fun n => (jsDateParseMs tz n).map toISO)

/-- Recognizer 4 (ISO-like, normalized then parsed). -/
def p4 (tz : Int) (l : List Char) : Option String :=
  (m4 l).bind (fun n => (jsDateParseMs tz n).map toISO)

/-- Seconds-versus-milliseconds disambiguation of recognizer 5: values
below 10^10 are seconds, larger ones milliseconds. -/
def p5val (n : Nat) : Int :=
  if (n : Int) < 10000000000 then (n : Int) * 1000 else (n : Int)

/-- Recognizer 5: bare digit string as a Unix timestamp, seconds when
below 10^10 and milliseconds otherwise, accepted only in the open range
(0, 4102444800000). -/
def p5 (l : List Char) : Option String :=
  if jsTrim l ≠ [] ∧ (jsTrim l).all isDig then
    if 0 < (digitsVal (jsTrim l) : Int) ∧ (digitsVal (jsTrim l) : Int) < 4102444800000 then
      if -8640000000000000 ≤ p5val (digitsVal (jsTrim l)) ∧
          p5val (digitsVal (jsTrim l)) ≤ 8640000000000000 then
        some (toISO (p5val (digitsVal (jsTrim l))))
      else none
    else none
  else none

/-- Recognizer 6 (`Mon DD YYYY H:MM:SS [+-HHMM]`, normalized then
parsed). -/
def p6 (tz : Int) (l : List Char) : Option String :=
  (m6 l).bind (fun n => (jsDateParseMs tz n).map toISO)

/-- The `for`/`try`/`catch` loop of `parseEmailDate` (lines 164-176):
each candidate either throws (`Except.error`, caught and skipped),
returns `null` (skipped), returns an empty string (falsy, skipped) or
returns a usable result.  The result type has no error constructor: no
exception reaches the caller. -/
def runLoop {ε : Type} : List (List Char → Except ε (Option String)) → List Char → Option String
  | [], _ => none
  | p :: ps, s =>
    match p s with
    | Except.error _ => runLoop ps s
    | Except.ok none => runLoop ps s
    | Except.ok (some r) => if r = "" then runLoop ps s else some r

/-- The `dateParsers` array, in source order.  The six closures are
total functions: `String.prototype.match`, `parseInt` and `new Date`
never throw, and `toISOString` is guarded by the `isNaN` check in every
branch. -/
def dateParsers (tz : Int) : List (List Char → Option String) :=
  [p1 tz, p2 tz, p3 tz, p4 tz, p5, p6 tz]

/-- The `dateParsers` array lifted into the exception-aware loop. -/
def emailParsers (tz : Int) : List (List Char → Except Empty (Option String)) :=
  (dateParsers tz).map (fun g s => Except.ok (g s))

/-- `parseEmailDate` (lines 157-181): absent or whitespace-only input
gives `null`; otherwise the recognizers run on the trimmed text and the
first usable result is returned; if all fail the original (untrimmed)
input is returned unchanged. -/
def parseEmailDate (tz : Int) : Option String → Option String
  | none => none
  | some s =>
    let t := jsTrim s.data
    if t = [] then none
    else
      match runLoop (emailParsers tz) t with
      | some r => some r
      | none => some s

/-! ## `convertToCRTimezone`: Europe/Prague civil-time rendering

`Intl.DateTimeFormat` with `timeZone: "Europe/Prague"` is modelled by
the EU daylight-saving rule (tzdata `EU` rule set, in force since 1996):
UTC offset +120 minutes from 01:00 UTC on the last Sunday of March until
01:00 UTC on the last Sunday of October, +60 minutes otherwise, applied
uniformly to all years.  The formatter's two-digit numeric parts are
modelled directly as the numbers they print (the source `parseInt`s them
straight back). -/

/-- Unpadded decimal numeral of a natural number. -/
def natReprF : Nat → Nat → List Char
  | 0, n => [digCh (n % 10)]
  | fuel + 1, n => if n < 10 then [digCh n] else natReprF fuel (n / 10) ++ [digCh (n % 10)]

/-- Unpadded decimal numeral of a natural number (fuelled structural
recursion; one digit per step, so `n` is always enough fuel). -/
def natRepr (n : Nat) : List Char := natReprF n n

/-- Unpadded decimal numeral of an integer (`Intl` numeric year). -/
def intRepr (i : Int) : List Char :=
  if i < 0 then '-' :: natRepr (-i).toNat else natRepr i.toNat

/-- Day of month of the last Sunday of a 31-day month `m` of year `y`. -/
def lastSunDom (y : Int) (m : Nat) : Int :=
  31 - (daysFromCivil y m 31 + 4) % 7

/-- Instant (UTC milliseconds) at which summer time starts in year `y`:
01:00 UTC on the last Sunday of March. -/
def dstStart (y : Int) : Int :=
  86400000 * daysFromCivil y 3 (lastSunDom y 3) + 3600000

/-- Instant at which summer time ends in year `y`: 01:00 UTC on the last
Sunday of October. -/
def dstEnd (y : Int) : Int :=
  86400000 * daysFromCivil y 10 (lastSunDom y 10) + 3600000

/-- Whether Europe/Prague daylight-saving time is in effect at `t`. -/
def pragueDST (t : Int) : Bool :=
  let y := (yearFromDay (t / 86400000)).1
  decide (dstStart y ≤ t ∧ t < dstEnd y)

/-- Europe/Prague UTC offset in minutes at instant `t`. -/
def pragueOffMin (t : Int) : Int := if pragueDST t then 120 else 60

/-- The shifted time value whose UTC fields are Prague's civil fields. -/
def crLoc (t : Int) : Int := t + 60000 * pragueOffMin t

/-- Prague civil hour (what the `hour: "2-digit"` part prints). -/
def crHourN (t : Int) : Int := crLoc t % 86400000 / 3600000

/-- Prague civil minute. -/
def crMinuteN (t : Int) : Int := crLoc t % 86400000 % 3600000 / 60000

/-- Prague civil second. -/
def crSecondN (t : Int) : Int := crLoc t % 86400000 % 60000 / 1000

/-- Prague civil day of month. -/
def crDayN (t : Int) : Int := (civilFromDay (crLoc t / 86400000)).2.2

/-- UTC hour of `t` (the helper `Intl` UTC formatter). -/
def utcHourN (t : Int) : Int := t % 86400000 / 3600000

/-- UTC minute of `t`. -/
def utcMinuteN (t : Int) : Int := t % 86400000 % 3600000 / 60000

/-- UTC day of month of `t`. -/
def utcDayN (t : Int) : Int := (civilFromDay (t / 86400000)).2.2

/-- Lines 242-251: minutes-of-day difference plus the day-of-month
rollover correction of ±1440 minutes. -/
def crRawOffset (t : Int) : Int :=
  (crHourN t * 60 + crMinuteN t) - (utcHourN t * 60 + utcMinuteN t) +
    (if crDayN t = utcDayN t then 0
     else if utcDayN t < crDayN t then 1440 else -1440)

/-- Line 254, `while (offsetMinutes > 720) offsetMinutes -= 1440`, as a
fuelled structural loop (each pass moves 1440, so the fuel used below is
always sufficient). -/
def normDownF : Nat → Int → Int
  | 0, x => x
  | fuel + 1, x => if 720 < x then normDownF fuel (x - 1440) else x

/-- Line 255: `while (offsetMinutes < -720) offsetMinutes += 1440`. -/
def normUpF : Nat → Int → Int
  | 0, x => x
  | fuel + 1, x => if x < -720 then normUpF fuel (x + 1440) else x

/-- The first `while` loop of lines 253-255. -/
def normDown (x : Int) : Int := normDownF (x.toNat / 1440 + 1) x

/-- The second `while` loop of lines 253-255. -/
def normUp (x : Int) : Int := normUpF ((-x).toNat / 1440 + 1) x

/-- The normalized offset the renderer classifies and prints. -/
def crOffsetMinutes (t : Int) : Int := normUp (normDown (crRawOffset t))

/-- Lines 257-260: signed zero-padded `HHMM` offset field. -/
def crOffsetChars (t : Int) : List Char :=
  (if 0 ≤ crOffsetMinutes t then '+' else '-') ::
    pad2 ((crOffsetMinutes t).natAbs / 60) ++ pad2 ((crOffsetMinutes t).natAbs % 60)

/-- Lines 262-264: `CEST` exactly when the offset is +120 minutes. -/
def crTzChars (t : Int) : List Char :=
  if crOffsetMinutes t = 120 then ['C', 'E', 'S', 'T'] else ['C', 'E', 'T']

/-- Line 266: the assembled
`Www, DD Mon YYYY HH:MM:SS +HHMM (ZONE)` output. -/
def renderCR (t : Int) : String :=
  String.mk
    (weekdayName ((crLoc t / 86400000 + 4) % 7).toNat ++ ',' :: ' ' ::
     pad2 (crDayN t).toNat ++ ' ' ::
     monthName (civilFromDay (crLoc t / 86400000)).2.1 ++ ' ' ::
     intRepr (civilFromDay (crLoc t / 86400000)).1 ++ ' ' ::
     pad2 (crHourN t).toNat ++ ':' :: pad2 (crMinuteN t).toNat ++ ':' ::
     pad2 (crSecondN t).toNat ++ ' ' ::
     crOffsetChars t ++ ' ' :: '(' :: crTzChars t ++ [')'])

/-- `convertToCRTimezone` (lines 189-270): absent input gives `null`,
`new Date` then `isNaN` guard gives `null` on unparseable input, and a
valid instant is rendered in Prague civil time. -/
def convertToCRTimezone (tz : Int) : Option String → Option String
  | none => none
  | some s => (jsDateParseMs tz s.data).map renderCR

/-! ## Reading printed numerals back -/

theorem digCh_toNat (d : Nat) (h : d < 10) : (digCh d).toNat = 48 + d := by
  interval_cases d <;> decide

theorem digCh_isDig (d : Nat) (h : d < 10) : isDig (digCh d) = true := by
  interval_cases d <;> decide

theorem digCh_not_ws (d : Nat) (h : d < 10) : jsWs (digCh d) = false := by
  interval_cases d <;> decide

theorem digCh_isWord (d : Nat) (h : d < 10) : isWord (digCh d) = true := by
  interval_cases d <;> decide

theorem pad2_digits (n : Nat) : ∀ c ∈ pad2 n, isDig c = true := by
  simp only [pad2, List.mem_cons, List.mem_singleton]
  rintro c (rfl | rfl | h)
  · exact digCh_isDig _ (Nat.mod_lt _ (by omega))
  · exact digCh_isDig _ (Nat.mod_lt _ (by omega))
  · cases h

theorem pad3_digits (n : Nat) : ∀ c ∈ pad3 n, isDig c = true := by
  simp only [pad3, List.mem_cons, List.mem_singleton]
  rintro c (rfl | rfl | rfl | h)
  · exact digCh_isDig _ (Nat.mod_lt _ (by omega))
  · exact digCh_isDig _ (Nat.mod_lt _ (by omega))
  · exact digCh_isDig _ (Nat.mod_lt _ (by omega))
  · cases h

theorem pad4_digits (n : Nat) : ∀ c ∈ pad4 n, isDig c = true := by
  simp only [pad4, List.mem_cons, List.mem_singleton]
  rintro c (rfl | rfl | rfl | rfl | h)
  · exact digCh_isDig _ (Nat.mod_lt _ (by omega))
  · exact digCh_isDig _ (Nat.mod_lt _ (by omega))
  · exact digCh_isDig _ (Nat.mod_lt _ (by omega))
  · exact digCh_isDig _ (Nat.mod_lt _ (by omega))
  · cases h

theorem pad6_digits (n : Nat) : ∀ c ∈ pad6 n, isDig c = true := by
  simp only [pad6, List.mem_cons, List.mem_singleton]
  rintro c (rfl | rfl | rfl | rfl | rfl | rfl | h)
  all_goals first
  | exact digCh_isDig _ (Nat.mod_lt _ (by omega))
  | cases h

theorem digitsVal_pad2 (n : Nat) (h : n < 100) : digitsVal (pad2 n) = n := by
  simp only [pad2, digitsVal, List.foldl]
  rw [digCh_toNat _ (Nat.mod_lt _ (by omega)), digCh_toNat _ (Nat.mod_lt _ (by omega))]
  omega

theorem digitsVal_pad3 (n : Nat) (h : n < 1000) : digitsVal (pad3 n) = n := by
  simp only [pad3, digitsVal, List.foldl]
  rw [digCh_toNat _ (Nat.mod_lt _ (by omega)), digCh_toNat _ (Nat.mod_lt _ (by omega)),
    digCh_toNat _ (Nat.mod_lt _ (by omega))]
  omega

theorem digitsVal_pad4 (n : Nat) (h : n < 10000) : digitsVal (pad4 n) = n := by
  simp only [pad4, digitsVal, List.foldl]
  rw [digCh_toNat _ (Nat.mod_lt _ (by omega)), digCh_toNat _ (Nat.mod_lt _ (by omega)),
    digCh_toNat _ (Nat.mod_lt _ (by omega)), digCh_toNat _ (Nat.mod_lt _ (by omega))]
  omega

theorem digitsVal_pad6 (n : Nat) (h : n < 1000000) : digitsVal (pad6 n) = n := by
  simp only [pad6, digitsVal, List.foldl]
  rw [digCh_toNat _ (Nat.mod_lt _ (by omega)), digCh_toNat _ (Nat.mod_lt _ (by omega)),
    digCh_toNat _ (Nat.mod_lt _ (by omega)), digCh_toNat _ (Nat.mod_lt _ (by omega)),
    digCh_toNat _ (Nat.mod_lt _ (by omega)), digCh_toNat _ (Nat.mod_lt _ (by omega))]
  omega

/-- The head of a list fails a character test (or the list is empty). -/
def headNot (p : Char → Bool) (l : List Char) : Prop :=
  match l with
  | [] => True
  | c :: _ => p c = false

theorem takeDigs_split (ds rest : List Char) (h1 : ∀ c ∈ ds, isDig c = true)
    (h2 : headNot isDig rest) : takeDigs (ds ++ rest) = (ds, rest) := by
  induction ds with
  | nil =>
    simp only [List.nil_append]
    match rest, h2 with
    | [], _ => rfl
    | c :: cs, h2 =>
      have h2a : isDig c = false := h2
      simp [takeDigs, h2a]
  | cons d ds ih =>
    have hd : isDig d = true := h1 d (List.mem_cons_self d ds)
    simp only [List.cons_append, takeDigs, hd, if_true, List.append_eq]
    rw [ih (fun c hc => h1 c (List.mem_cons_of_mem d hc))]

theorem takeWords_split (ds rest : List Char) (h1 : ∀ c ∈ ds, isWord c = true)
    (h2 : headNot isWord rest) : takeWords (ds ++ rest) = (ds, rest) := by
  induction ds with
  | nil =>
    simp only [List.nil_append]
    match rest, h2 with
    | [], _ => rfl
    | c :: cs, h2 =>
      have h2a : isWord c = false := h2
      simp [takeWords, h2a]
  | cons d ds ih =>
    have hd : isWord d = true := h1 d (List.mem_cons_self d ds)
    simp only [List.cons_append, takeWords, hd, if_true, List.append_eq]
    rw [ih (fun c hc => h1 c (List.mem_cons_of_mem d hc))]

theorem isDig_isWord (c : Char) (h : isDig c = true) : isWord c = true := by
  simp only [isWord, h]
  simp [decide_eq_true_eq]

theorem digCh_ne (d : Nat) (h : d < 10) (c : Char) (hc : c.toNat < 48 ∨ 57 < c.toNat) :
    (digCh d = c) = False := by
  simp only [eq_iff_iff, iff_false]
  intro he
  rw [← he] at hc
  rw [digCh_toNat d h] at hc
  omega

theorem pad2_not_ws (n : Nat) : ∀ c ∈ pad2 n, jsWs c = false := by
  simp only [pad2, List.mem_cons, List.mem_singleton]
  rintro c (rfl | rfl | h)
  · exact digCh_not_ws _ (Nat.mod_lt _ (by omega))
  · exact digCh_not_ws _ (Nat.mod_lt _ (by omega))
  · cases h

theorem pad3_not_ws (n : Nat) : ∀ c ∈ pad3 n, jsWs c = false := by
  simp only [pad3, List.mem_cons, List.mem_singleton]
  rintro c (rfl | rfl | rfl | h)
  all_goals first
  | exact digCh_not_ws _ (Nat.mod_lt _ (by omega))
  | cases h

theorem pad4_not_ws (n : Nat) : ∀ c ∈ pad4 n, jsWs c = false := by
  simp only [pad4, List.mem_cons, List.mem_singleton]
  rintro c (rfl | rfl | rfl | rfl | h)
  all_goals first
  | exact digCh_not_ws _ (Nat.mod_lt _ (by omega))
  | cases h

theorem pad6_not_ws (n : Nat) : ∀ c ∈ pad6 n, jsWs c = false := by
  simp only [pad6, List.mem_cons, List.mem_singleton]
  rintro c (rfl | rfl | rfl | rfl | rfl | rfl | h)
  all_goals first
  | exact digCh_not_ws _ (Nat.mod_lt _ (by omega))
  | cases h

/-- Trimming is the identity on a string with no whitespace at all. -/
theorem jsTrim_of_all (l : List Char) (h : ∀ c ∈ l, jsWs c = false) :
    jsTrim l = l := by
  have h1 : l.dropWhile jsWs = l := by
    match l with
    | [] => rfl
    | c :: cs => simp [List.dropWhile_cons, h c (List.mem_cons_self c cs)]
  have h2 : l.reverse.dropWhile jsWs = l.reverse := by
    match hrev : l.reverse with
    | [] => rfl
    | c :: cs =>
      have hc : c ∈ l := by
        rw [← List.mem_reverse, hrev]
        exact List.mem_cons_self c cs
      simp [List.dropWhile_cons, h c hc]
  simp [jsTrim, h1, h2]

theorem padDayL_len2 (l : List Char) (h : l.length = 2) : padDayL l = l := by
  simp [padDayL, h]

theorem length_pad2 (n : Nat) : (pad2 n).length = 2 := rfl
theorem length_pad3 (n : Nat) : (pad3 n).length = 3 := rfl
theorem length_pad4 (n : Nat) : (pad4 n).length = 4 := rfl
theorem length_pad6 (n : Nat) : (pad6 n).length = 6 := rfl

theorem exactDigs_pad2 (n : Nat) (h : n < 100) (rest : List Char)
    (hr : headNot isDig rest) : exactDigs 2 (pad2 n ++ rest) = some (n, rest) := by
  simp only [exactDigs]
  rw [takeDigs_split (pad2 n) rest (pad2_digits n) hr]
  simp [length_pad2, digitsVal_pad2 n h]

theorem exactDigs_pad4 (n : Nat) (h : n < 10000) (rest : List Char)
    (hr : headNot isDig rest) : exactDigs 4 (pad4 n ++ rest) = some (n, rest) := by
  simp only [exactDigs]
  rw [takeDigs_split (pad4 n) rest (pad4_digits n) hr]
  simp [length_pad4, digitsVal_pad4 n h]

theorem takeDigs_pad4 (n : Nat) (rest : List Char) (hr : headNot isDig rest) :
    takeDigs (pad4 n ++ rest) = (pad4 n, rest) :=
  takeDigs_split (pad4 n) rest (pad4_digits n) hr

theorem takeDigs_pad6 (n : Nat) (rest : List Char) (hr : headNot isDig rest) :
    takeDigs (pad6 n ++ rest) = (pad6 n, rest) :=
  takeDigs_split (pad6 n) rest (pad6_digits n) hr

theorem isoTime_pads_msZ (nh nmi ns nms : Nat)
    (hh : nh < 100) (hm : nmi < 100) (hs : ns < 100) (hms : nms < 1000) :
    isoTime (pad2 nh ++ ':' :: (pad2 nmi ++ ':' :: (pad2 ns ++ '.' :: (pad3 nms ++ ['Z'])))) =
      some (nh, nmi, ns, nms, some 0) := by
  simp only [isoTime]
  rw [exactDigs_pad2 nh hh _ (by trivial)]
  simp only []
  rw [exactDigs_pad2 nmi hm _ (by trivial)]
  simp only []
  rw [exactDigs_pad2 ns hs _ (by trivial)]
  simp only []
  rw [takeDigs_split (pad3 nms) ['Z'] (pad3_digits nms) (by trivial)]
  simp only [length_pad3]
  rw [show List.take 3 (pad3 nms ++ ['0', '0', '0']) = pad3 nms from by
    rw [show (3 : Nat) = (pad3 nms).length from rfl]
    exact List.take_left _ _]
  simp [digitsVal_pad3 nms hms, isoOff]

theorem headD_pad4 (n : Nat) (rest : List Char) (c : Char) :
    (pad4 n ++ rest).headD c = digCh (n / 1000 % 10) := rfl

theorem isoTail_print (y : Int) (mo d nh nmi ns nms : Nat)
    (hmo : mo < 100) (hd : d < 100) (hh : nh < 100) (hm : nmi < 100)
    (hs : ns < 100) (hms : nms < 1000) :
    isoTail y ('-' :: (pad2 mo ++ '-' :: (pad2 d ++ 'T' ::
      (pad2 nh ++ ':' :: (pad2 nmi ++ ':' :: (pad2 ns ++ '.' :: (pad3 nms ++ ['Z']))))))) =
      some ⟨y, mo, (d : Int), (nh : Int), (nmi : Int), (ns : Int), (nms : Int), some 0, false⟩ := by
  simp only [isoTail]
  rw [exactDigs_pad2 mo hmo _ (by trivial)]
  simp only []
  rw [exactDigs_pad2 d hd _ (by trivial)]
  simp only []
  rw [isoTime_pads_msZ nh nmi ns nms hh hm hs hms]

theorem isoM_print4 (ny mo d nh nmi ns nms : Nat)
    (hy : ny < 10000) (hmo : mo < 100) (hd : d < 100) (hh : nh < 100) (hm : nmi < 100)
    (hs : ns < 100) (hms : nms < 1000) :
    isoM (pad4 ny ++ '-' :: (pad2 mo ++ '-' :: (pad2 d ++ 'T' ::
      (pad2 nh ++ ':' :: (pad2 nmi ++ ':' :: (pad2 ns ++ '.' :: (pad3 nms ++ ['Z']))))))) =
      some ⟨(ny : Int), mo, (d : Int), (nh : Int), (nmi : Int), (ns : Int), (nms : Int),
            some 0, false⟩ := by
  have e1 : (digCh (ny / 1000 % 10) = '+') = False :=
    digCh_ne _ (Nat.mod_lt _ (by omega)) _ (by decide)
  have e2 : (digCh (ny / 1000 % 10) = '-') = False :=
    digCh_ne _ (Nat.mod_lt _ (by omega)) _ (by decide)
  simp only [isoM, headD_pad4, e1, e2, if_false]
  rw [takeDigs_pad4 ny _ (by trivial)]
  simp only [length_pad4]
  norm_num
  rw [digitsVal_pad4 ny hy]
  refine ⟨by simp, ?_⟩
  exact isoTail_print _ mo d nh nmi ns nms hmo hd hh hm hs hms

theorem isoM_print6pos (ny mo d nh nmi ns nms : Nat)
    (hy : ny < 1000000) (hmo : mo < 100) (hd : d < 100) (hh : nh < 100) (hm : nmi < 100)
    (hs : ns < 100) (hms : nms < 1000) :
    isoM ('+' :: (pad6 ny ++ '-' :: (pad2 mo ++ '-' :: (pad2 d ++ 'T' ::
      (pad2 nh ++ ':' :: (pad2 nmi ++ ':' :: (pad2 ns ++ '.' :: (pad3 nms ++ ['Z'])))))))) =
      some ⟨(ny : Int), mo, (d : Int), (nh : Int), (nmi : Int), (ns : Int), (nms : Int),
            some 0, false⟩ := by
  simp only [isoM, List.headD_cons, List.tail_cons, if_pos rfl, if_true]
  rw [takeDigs_pad6 ny _ (by trivial)]
  simp only [length_pad6]
  norm_num
  rw [digitsVal_pad6 ny hy]
  exact isoTail_print _ mo d nh nmi ns nms hmo hd hh hm hs hms

theorem isoM_print6neg (ny mo d nh nmi ns nms : Nat)
    (hy : ny < 1000000) (hy0 : 0 < ny) (hmo : mo < 100) (hd : d < 100) (hh : nh < 100)
    (hm : nmi < 100) (hs : ns < 100) (hms : nms < 1000) :
    isoM ('-' :: (pad6 ny ++ '-' :: (pad2 mo ++ '-' :: (pad2 d ++ 'T' ::
      (pad2 nh ++ ':' :: (pad2 nmi ++ ':' :: (pad2 ns ++ '.' :: (pad3 nms ++ ['Z'])))))))) =
      some ⟨-(ny : Int), mo, (d : Int), (nh : Int), (nmi : Int), (ns : Int), (nms : Int),
            some 0, false⟩ := by
  have c1 : ('-' = '+') = False := by decide
  simp only [isoM, List.headD_cons, List.tail_cons, c1, if_false, if_pos rfl, if_true]
  rw [takeDigs_pad6 ny _ (by trivial)]
  simp only [length_pad6]
  norm_num
  rw [digitsVal_pad6 ny hy]
  exact ⟨by omega, isoTail_print _ mo d nh nmi ns nms hmo hd hh hm hs hms⟩

theorem civilFromDay_fst (z : Int) : (civilFromDay z).1 = (yearFromDay z).1 := rfl

theorem civilFromDay_year_bound (q : Int) (h1 : -100000001 ≤ q) (h2 : q ≤ 100000001) :
    -280000 ≤ (civilFromDay q).1 ∧ (civilFromDay q).1 ≤ 280000 := by
  have hy := yearFromDay_inv q
  have hd1 := daysInYear_ge (yearFromDay q).1
  have hd2 := daysInYear_le (yearFromDay q).1
  rw [civilFromDay_fst]
  simp only [yearStartDays] at hy
  omega

theorem toISO_shape4 (t : Int)
    (hc : 0 ≤ (civilFromDay (t / 86400000)).1 ∧ (civilFromDay (t / 86400000)).1 ≤ 9999) :
    toISOChars t =
      pad4 (civilFromDay (t / 86400000)).1.toNat ++ '-' ::
        (pad2 (civilFromDay (t / 86400000)).2.1 ++ '-' ::
          (pad2 (civilFromDay (t / 86400000)).2.2.toNat ++ 'T' ::
            (pad2 ((t % 86400000).toNat / 3600000) ++ ':' ::
              (pad2 ((t % 86400000).toNat % 3600000 / 60000) ++ ':' ::
                (pad2 ((t % 86400000).toNat % 60000 / 1000) ++ '.' ::
                  (pad3 ((t % 86400000).toNat % 1000) ++ ['Z'])))))) := by
  simp only [toISOChars]
  rw [if_pos hc]
  simp [List.append_assoc]

theorem toISO_shape6pos (t : Int)
    (hc : 9999 < (civilFromDay (t / 86400000)).1) :
    toISOChars t =
      '+' :: (pad6 (civilFromDay (t / 86400000)).1.toNat ++ '-' ::
        (pad2 (civilFromDay (t / 86400000)).2.1 ++ '-' ::
          (pad2 (civilFromDay (t / 86400000)).2.2.toNat ++ 'T' ::
            (pad2 ((t % 86400000).toNat / 3600000) ++ ':' ::
              (pad2 ((t % 86400000).toNat % 3600000 / 60000) ++ ':' ::
                (pad2 ((t % 86400000).toNat % 60000 / 1000) ++ '.' ::
                  (pad3 ((t % 86400000).toNat % 1000) ++ ['Z']))))))) := by
  simp only [toISOChars]
  rw [if_neg (by omega), if_neg (by omega)]
  simp [List.append_assoc]

theorem toISO_shape6neg (t : Int)
    (hc : (civilFromDay (t / 86400000)).1 < 0) :
    toISOChars t =
      '-' :: (pad6 (-(civilFromDay (t / 86400000)).1).toNat ++ '-' ::
        (pad2 (civilFromDay (t / 86400000)).2.1 ++ '-' ::
          (pad2 (civilFromDay (t / 86400000)).2.2.toNat ++ 'T' ::
            (pad2 ((t % 86400000).toNat / 3600000) ++ ':' ::
              (pad2 ((t % 86400000).toNat % 3600000 / 60000) ++ ':' ::
                (pad2 ((t % 86400000).toNat % 60000 / 1000) ++ '.' ::
                  (pad3 ((t % 86400000).toNat % 1000) ++ ['Z']))))))) := by
  simp only [toISOChars]
  rw [if_neg (by omega), if_pos hc]
  simp [List.append_assoc]

theorem daysInMonth_le31 (leap : Bool) (m : Nat) : daysInMonth leap m ≤ 31 := by
  unfold daysInMonth
  split
  all_goals first
  | omega
  | (split <;> omega)

theorem shape_not_ws (yp : List Char) (hyp : ∀ c ∈ yp, jsWs c = false)
    (mo dd nh nmi ns nms : Nat) :
    ∀ c ∈ yp ++ '-' :: (pad2 mo ++ '-' :: (pad2 dd ++ 'T' ::
      (pad2 nh ++ ':' :: (pad2 nmi ++ ':' :: (pad2 ns ++ '.' :: (pad3 nms ++ ['Z'])))))),
      jsWs c = false := by
  intro c hc
  simp only [List.mem_append, List.mem_cons, List.mem_singleton] at hc
  rcases hc with h | rfl | h | rfl | h | rfl | h | rfl | h | rfl | h | rfl | h | rfl | h
  · exact hyp c h
  · decide
  · exact pad2_not_ws mo c h
  · decide
  · exact pad2_not_ws dd c h
  · decide
  · exact pad2_not_ws nh c h
  · decide
  · exact pad2_not_ws nmi c h
  · decide
  · exact pad2_not_ws ns c h
  · decide
  · exact pad3_not_ws nms c h
  · decide
  · cases h

theorem shape_not_ws_sign (sgn : Char) (hs : jsWs sgn = false)
    (np mo dd nh nmi ns nms : Nat) :
    ∀ c ∈ sgn :: (pad6 np ++ '-' :: (pad2 mo ++ '-' :: (pad2 dd ++ 'T' ::
      (pad2 nh ++ ':' :: (pad2 nmi ++ ':' :: (pad2 ns ++ '.' :: (pad3 nms ++ ['Z']))))))),
      jsWs c = false := by
  intro c hc
  rcases List.mem_cons.mp hc with rfl | h
  · exact hs
  · exact shape_not_ws (pad6 np) (pad6_not_ws np) mo dd nh nmi ns nms c h

theorem validF_mk (y : Int) (mo : Nat) (d h mi s ms : Int) (off : Option Int) (dOnly : Bool)
    (h1 : 1 ≤ mo ∧ mo ≤ 12) (h2 : 1 ≤ d ∧ d ≤ daysInMonth (isLeap y) mo)
    (h3 : 0 ≤ mi ∧ mi ≤ 59) (h4 : 0 ≤ s ∧ s ≤ 59) (h5 : 0 ≤ ms ∧ ms ≤ 999)
    (h6 : 0 ≤ h ∧ h ≤ 23) :
    validF ⟨y, mo, d, h, mi, s, ms, off, dOnly⟩ = true := by
  simp only [validF, Bool.and_eq_true, Bool.or_eq_true, decide_eq_true_eq]
  refine ⟨h1, h2, ⟨h3.1, h3.2, h4.1, h4.2, h5.1, h5.2⟩, Or.inl h6⟩

theorem interpF_off0 (tz : Int) (f : JsF) (hvf : validF f = true) (ho : f.off = some 0) :
    interpF tz f =
      if -8640000000000000 ≤ fieldsMs f ∧ fieldsMs f ≤ 8640000000000000 then
        some (fieldsMs f)
      else none := by
  simp only [interpF, hvf, ho, if_true]
  norm_num

set_option maxHeartbeats 1000000 in
theorem jsDateParseMs_toISO (tz t : Int)
    (h1 : -8640000000000000 ≤ t) (h2 : t ≤ 8640000000000000) :
    jsDateParseMs tz (toISOChars t) = some t := by
  have hq1 : -100000001 ≤ t / 86400000 := by omega
  have hq2 : t / 86400000 ≤ 100000001 := by omega
  have hyb := civilFromDay_year_bound _ hq1 hq2
  have hb := civilFromDay_bounds (t / 86400000)
  have hdim := daysInMonth_le31 (isLeap (civilFromDay (t / 86400000)).1)
    (civilFromDay (t / 86400000)).2.1
  have ht1 := daysFromCivil_civilFromDay (t / 86400000)
  have hr0 : 0 ≤ t % 86400000 := Int.emod_nonneg t (by norm_num)
  have hrlt : t % 86400000 < 86400000 := Int.emod_lt_of_pos t (by norm_num)
  have hcd : ((civilFromDay (t / 86400000)).2.2.toNat : Int) =
      (civilFromDay (t / 86400000)).2.2 := Int.toNat_of_nonneg (by omega)
  by_cases hcase : 0 ≤ (civilFromDay (t / 86400000)).1 ∧ (civilFromDay (t / 86400000)).1 ≤ 9999
  · have hcy : ((civilFromDay (t / 86400000)).1.toNat : Int) =
        (civilFromDay (t / 86400000)).1 := Int.toNat_of_nonneg hcase.1
    simp only [jsDateParseMs]
    rw [toISO_shape4 t hcase]
    rw [jsTrim_of_all _ (shape_not_ws _ (pad4_not_ws _) _ _ _ _ _ _)]
    simp only [jsFieldsOf]
    rw [isoM_print4 _ _ _ _ _ _ _ (by omega) (by omega) (by omega) (by omega)
      (by omega) (by omega) (by omega)]
    simp only [Option.some_bind, hcy, hcd]
    rw [interpF_off0 tz _ (validF_mk _ _ _ _ _ _ _ _ _ ⟨by omega, by omega⟩
      ⟨by omega, by omega⟩ ⟨by omega, by omega⟩ ⟨by omega, by omega⟩
      ⟨by omega, by omega⟩ ⟨by omega, by omega⟩) rfl]
    have hfm : fieldsMs ⟨(civilFromDay (t / 86400000)).1, (civilFromDay (t / 86400000)).2.1,
        (civilFromDay (t / 86400000)).2.2, ((t % 86400000).toNat / 3600000 : Nat),
        ((t % 86400000).toNat % 3600000 / 60000 : Nat),
        ((t % 86400000).toNat % 60000 / 1000 : Nat),
        ((t % 86400000).toNat % 1000 : Nat), some 0, false⟩ = t := by
      simp only [fieldsMs, ht1]
      omega
    rw [hfm, if_pos ⟨h1, h2⟩]
  · by_cases hpos : 9999 < (civilFromDay (t / 86400000)).1
    · have hcy : ((civilFromDay (t / 86400000)).1.toNat : Int) =
          (civilFromDay (t / 86400000)).1 := Int.toNat_of_nonneg (by omega)
      simp only [jsDateParseMs]
      rw [toISO_shape6pos t hpos]
      rw [jsTrim_of_all _ (shape_not_ws_sign '+' (by decide) _ _ _ _ _ _ _)]
      simp only [jsFieldsOf]
      rw [isoM_print6pos _ _ _ _ _ _ _ (by omega) (by omega) (by omega) (by omega)
        (by omega) (by omega) (by omega)]
      simp only [Option.some_bind, hcy, hcd]
      rw [interpF_off0 tz _ (validF_mk _ _ _ _ _ _ _ _ _ ⟨by omega, by omega⟩
        ⟨by omega, by omega⟩ ⟨by omega, by omega⟩ ⟨by omega, by omega⟩
        ⟨by omega, by omega⟩ ⟨by omega, by omega⟩) rfl]
      have hfm : fieldsMs ⟨(civilFromDay (t / 86400000)).1, (civilFromDay (t / 86400000)).2.1,
          (civilFromDay (t / 86400000)).2.2, ((t % 86400000).toNat / 3600000 : Nat),
          ((t % 86400000).toNat % 3600000 / 60000 : Nat),
          ((t % 86400000).toNat % 60000 / 1000 : Nat),
          ((t % 86400000).toNat % 1000 : Nat), some 0, false⟩ = t := by
        simp only [fieldsMs, ht1]
        omega
      rw [hfm, if_pos ⟨h1, h2⟩]
    · have hneg : (civilFromDay (t / 86400000)).1 < 0 := by omega
      have hcy : -((-(civilFromDay (t / 86400000)).1).toNat : Int) =
          (civilFromDay (t / 86400000)).1 := by omega
      simp only [jsDateParseMs]
      rw [toISO_shape6neg t hneg]
      rw [jsTrim_of_all _ (shape_not_ws_sign '-' (by decide) _ _ _ _ _ _ _)]
      simp only [jsFieldsOf]
      rw [isoM_print6neg _ _ _ _ _ _ _ (by omega) (by omega) (by omega) (by omega)
        (by omega) (by omega) (by omega) (by omega)]
      simp only [Option.some_bind, hcy, hcd]
      rw [interpF_off0 tz _ (validF_mk _ _ _ _ _ _ _ _ _ ⟨by omega, by omega⟩
        ⟨by omega, by omega⟩ ⟨by omega, by omega⟩ ⟨by omega, by omega⟩
        ⟨by omega, by omega⟩ ⟨by omega, by omega⟩) rfl]
      have hfm : fieldsMs ⟨(civilFromDay (t / 86400000)).1, (civilFromDay (t / 86400000)).2.1,
          (civilFromDay (t / 86400000)).2.2, ((t % 86400000).toNat / 3600000 : Nat),
          ((t % 86400000).toNat % 3600000 / 60000 : Nat),
          ((t % 86400000).toNat % 60000 / 1000 : Nat),
          ((t % 86400000).toNat % 1000 : Nat), some 0, false⟩ = t := by
        simp only [fieldsMs, ht1]
        omega
      rw [hfm, if_pos ⟨h1, h2⟩]

/-! ## The canonical image of every recognizer -/

theorem jsDateParseMs_clip (tz : Int) (l : List Char) (t : Int)
    (h : jsDateParseMs tz l = some t) :
    -8640000000000000 ≤ t ∧ t ≤ 8640000000000000 := by
  unfold jsDateParseMs at h
  cases hF : jsFieldsOf (jsTrim l) with
  | none => rw [hF] at h; cases h
  | some f =>
    rw [hF] at h
    simp only [Option.some_bind] at h
    unfold interpF at h
    repeat' split at h
    all_goals try cases h
    all_goals omega

/-- Every successful `new Date`-plus-`toISOString` branch produces the
canonical image of a clipped time value. -/
theorem mapToISO_inv (tz : Int) (l : List Char) (r : String)
    (h : (jsDateParseMs tz l).map toISO = some r) :
    ∃ m : Int, -8640000000000000 ≤ m ∧ m ≤ 8640000000000000 ∧ r = toISO m := by
  cases hP : jsDateParseMs tz l with
  | none => rw [hP] at h; cases h
  | some m =>
    rw [hP] at h
    simp only [Option.map_some'] at h
    have hc := jsDateParseMs_clip tz l m hP
    exact ⟨m, hc.1, hc.2, (Option.some.inj h).symm⟩

theorem p1_toISO (tz : Int) (l : List Char) (r : String) (h : p1 tz l = some r) :
    ∃ m : Int, -8640000000000000 ≤ m ∧ m ≤ 8640000000000000 ∧ r = toISO m :=
  mapToISO_inv tz l r h

theorem p2_toISO (tz : Int) (l : List Char) (r : String) (h : p2 tz l = some r) :
    ∃ m : Int, -8640000000000000 ≤ m ∧ m ≤ 8640000000000000 ∧ r = toISO m := by
  unfold p2 at h
  cases hm : m2 l with
  | none => rw [hm] at h; cases h
  | some n => rw [hm] at h; exact mapToISO_inv tz n r h

theorem p3_toISO (tz : Int) (l : List Char) (r : String) (h : p3 tz l = some r) :
    ∃ m : Int, -8640000000000000 ≤ m ∧ m ≤ 8640000000000000 ∧ r = toISO m := by
  unfold p3 at h
  cases hm : m3 l with
  | none => rw [hm] at h; cases h
  | some n => rw [hm] at h; exact mapToISO_inv tz n r h

theorem p4_toISO (tz : Int) (l : List Char) (r : String) (h : p4 tz l = some r) :
    ∃ m : Int, -8640000000000000 ≤ m ∧ m ≤ 8640000000000000 ∧ r = toISO m := by
  unfold p4 at h
  cases hm : m4 l with
  | none => rw [hm] at h; cases h
  | some n => rw [hm] at h; exact mapToISO_inv tz n r h

theorem p5_toISO (l : List Char) (r : String) (h : p5 l = some r) :
    ∃ m : Int, -8640000000000000 ≤ m ∧ m ≤ 8640000000000000 ∧ r = toISO m := by
  unfold p5 at h
  simp only [Option.ite_none_right_eq_some, Option.some.injEq] at h
  obtain ⟨hA, hB, hC, hr⟩ := h
  exact ⟨_, hC.1, hC.2, hr.symm⟩

theorem p6_toISO (tz : Int) (l : List Char) (r : String) (h : p6 tz l = some r) :
    ∃ m : Int, -8640000000000000 ≤ m ∧ m ≤ 8640000000000000 ∧ r = toISO m := by
  unfold p6 at h
  cases hm : m6 l with
  | none => rw [hm] at h; cases h
  | some n => rw [hm] at h; exact mapToISO_inv tz n r h

/-- Unfolding the loop over lifted total recognizers: the result, if
any, comes from one of them. -/
theorem runLoop_map_inv (P : String → Prop) (gs : List (List Char → Option String))
    (l : List Char) (hg : ∀ g ∈ gs, ∀ r, g l = some r → P r) :
    ∀ r, runLoop (gs.map (fun g s => (Except.ok (g s) : Except Empty (Option String)))) l =
      some r → P r := by
  induction gs with
  | nil => intro r h; cases h
  | cons g gs ih =>
    intro r h
    simp only [List.map_cons, runLoop] at h
    cases hgl : g l with
    | none =>
      rw [hgl] at h
      exact ih (fun g hgm => hg g (List.mem_cons_of_mem _ hgm)) r h
    | some r1 =>
      rw [hgl] at h
      have h2 : (if r1 = "" then
          runLoop (gs.map (fun g s => (Except.ok (g s) : Except Empty (Option String)))) l
        else some r1) = some r := h
      by_cases he : r1 = ""
      · rw [if_pos he] at h2
        exact ih (fun g hgm => hg g (List.mem_cons_of_mem _ hgm)) r h2
      · rw [if_neg he] at h2
        cases h2
        exact hg g (List.mem_cons_self _ _) r hgl

/-- Canonicality: a successful pass of the recognizer chain always
returns `Date.prototype.toISOString` of a valid clipped instant. -/
theorem runLoop_toISO (tz : Int) (l : List Char) (r : String)
    (h : runLoop (emailParsers tz) l = some r) :
    ∃ m : Int, -8640000000000000 ≤ m ∧ m ≤ 8640000000000000 ∧ r = toISO m := by
  refine runLoop_map_inv
    (fun r => ∃ m : Int, -8640000000000000 ≤ m ∧ m ≤ 8640000000000000 ∧ r = toISO m)
    (dateParsers tz) l ?_ r h
  intro g hgm r' hr'
  simp only [dateParsers, List.mem_cons, List.mem_singleton] at hgm
  rcases hgm with rfl | rfl | rfl | rfl | rfl | rfl | hfalse
  · exact p1_toISO tz l r' hr'
  · exact p2_toISO tz l r' hr'
  · exact p3_toISO tz l r' hr'
  · exact p4_toISO tz l r' hr'
  · exact p5_toISO l r' hr'
  · exact p6_toISO tz l r' hr'
  · cases hfalse

/-! ## Canonical strings re-parse to themselves -/

theorem toISO_not_ws (t : Int) : ∀ c ∈ toISOChars t, jsWs c = false := by
  by_cases hcase : 0 ≤ (civilFromDay (t / 86400000)).1 ∧ (civilFromDay (t / 86400000)).1 ≤ 9999
  · rw [toISO_shape4 t hcase]
    exact shape_not_ws _ (pad4_not_ws _) _ _ _ _ _ _
  · by_cases hpos : 9999 < (civilFromDay (t / 86400000)).1
    · rw [toISO_shape6pos t hpos]
      exact shape_not_ws_sign '+' (by decide) _ _ _ _ _ _ _
    · rw [toISO_shape6neg t (by omega)]
      exact shape_not_ws_sign '-' (by decide) _ _ _ _ _ _ _

theorem jsTrim_toISO (t : Int) : jsTrim (toISOChars t) = toISOChars t :=
  jsTrim_of_all _ (toISO_not_ws t)

theorem toISOChars_ne_nil (t : Int) : toISOChars t ≠ [] := by
  by_cases hcase : 0 ≤ (civilFromDay (t / 86400000)).1 ∧ (civilFromDay (t / 86400000)).1 ≤ 9999
  · rw [toISO_shape4 t hcase]
    simp [pad4]
  · by_cases hpos : 9999 < (civilFromDay (t / 86400000)).1
    · rw [toISO_shape6pos t hpos]
      simp
    · rw [toISO_shape6neg t (by omega)]
      simp

theorem toISO_ne_empty (t : Int) : toISO t ≠ "" := by
  intro he
  have : (toISO t).data = "".data := congrArg String.data he
  simp only [toISO] at this
  exact toISOChars_ne_nil t this

/-- One successful head recognizer with a truthy (non-empty) result
short-circuits the loop. -/
theorem runLoop_cons_ok_some {ε : Type} (g : List Char → Option String)
    (ps : List (List Char → Except ε (Option String))) (l : List Char) (r : String)
    (hg : g l = some r) (hne : r ≠ "") :
    runLoop ((fun s => Except.ok (g s)) :: ps) l = some r := by
  simp only [runLoop, hg]
  rw [if_neg hne]

/-- A canonical instant string fed back into `parseEmailDate` is
returned unchanged: the generic first recognizer re-reads it as the very
same instant, whose `toISOString` is the input again. -/
theorem parseEmailDate_toISO (tz m : Int)
    (h1 : -8640000000000000 ≤ m) (h2 : m ≤ 8640000000000000) :
    parseEmailDate tz (some (toISO m)) = some (toISO m) := by
  have hp1 : p1 tz (toISOChars m) = some (toISO m) := by
    unfold p1
    rw [jsDateParseMs_toISO tz m h1 h2]
    rfl
  have hloop : runLoop (emailParsers tz) (toISOChars m) = some (toISO m) := by
    rw [show emailParsers tz =
      (fun s => (Except.ok (p1 tz s) : Except Empty (Option String))) ::
        ([p2 tz, p3 tz, p4 tz, p5, p6 tz].map
          (fun g s => (Except.ok (g s) : Except Empty (Option String)))) from rfl]
    exact runLoop_cons_ok_some (p1 tz) _ _ _ hp1 (toISO_ne_empty m)
  simp only [parseEmailDate]
  rw [show (toISO m).data = toISOChars m from rfl]
  rw [jsTrim_toISO]
  rw [if_neg (toISOChars_ne_nil m), hloop]

/-- A head recognizer that returns `null` is skipped. -/
theorem runLoop_cons_ok_none {ε : Type} (g : List Char → Option String)
    (ps : List (List Char → Except ε (Option String))) (l : List Char)
    (hg : g l = none) :
    runLoop ((fun s => Except.ok (g s)) :: ps) l = runLoop ps l := by
  simp only [runLoop, hg]

/-- The lifted recognizer list, written out. -/
theorem emailParsers_eq (tz : Int) :
    emailParsers tz =
      (fun s => (Except.ok (p1 tz s) : Except Empty (Option String))) ::
      (fun s => Except.ok (p2 tz s)) :: (fun s => Except.ok (p3 tz s)) ::
      (fun s => Except.ok (p4 tz s)) :: (fun s => Except.ok (p5 s)) ::
      [fun s => Except.ok (p6 tz s)] := rfl

/-- With an explicit UTC offset in the string, the host-zone parameter
is irrelevant. -/
theorem interpF_off_any (tz tz2 : Int) (f : JsF) (o : Int) (ho : f.off = some o) :
    interpF tz f = interpF tz2 f := by
  simp only [interpF, ho]

/-- The empty string matches no recognizer. -/
theorem runLoop_nil_input (tz : Int) : runLoop (emailParsers tz) [] = none := by
  have h1 : p1 tz [] = none := by
    unfold p1 jsDateParseMs
    rw [show jsFieldsOf (jsTrim []) = none from rfl]
    rfl
  have h2 : p2 tz [] = none := by
    unfold p2
    rw [show m2 [] = none from rfl]
    rfl
  have h3 : p3 tz [] = none := by
    unfold p3
    rw [show m3 [] = none from rfl]
    rfl
  have h4 : p4 tz [] = none := by
    unfold p4
    rw [show m4 [] = none from rfl]
    rfl
  have h6 : p6 tz [] = none := by
    unfold p6
    rw [show m6 [] = none from rfl]
    rfl
  rw [emailParsers_eq tz, runLoop_cons_ok_none _ _ _ h1, runLoop_cons_ok_none _ _ _ h2,
    runLoop_cons_ok_none _ _ _ h3, runLoop_cons_ok_none _ _ _ h4,
    runLoop_cons_ok_none _ _ _ (show p5 [] = none from rfl),
    runLoop_cons_ok_none _ _ _ h6]
  rfl

/-! ## Claim theorems -/

/-- C1: `parseEmailDate` satisfies the three-way output contract: absent
or whitespace-only input gives no value; when some recognizer matches
and validates, its canonical instant string (a `toISOString` image) is
returned; when none matches, the original input string (not the trimmed
version) is returned unchanged. -/
theorem C1_parseEmailDate_contract :
    (∀ tz : Int, parseEmailDate tz none = none) ∧
    (∀ (tz : Int) (s : String), jsTrim s.data = [] → parseEmailDate tz (some s) = none) ∧
    (∀ (tz : Int) (s : String) (r : String), jsTrim s.data ≠ [] →
      runLoop (emailParsers tz) (jsTrim s.data) = some r →
      parseEmailDate tz (some s) = some r ∧
      ∃ m : Int, -8640000000000000 ≤ m ∧ m ≤ 8640000000000000 ∧ r = toISO m) ∧
    (∀ (tz : Int) (s : String), jsTrim s.data ≠ [] →
      runLoop (emailParsers tz) (jsTrim s.data) = none →
      parseEmailDate tz (some s) = some s) := by
  refine ⟨fun tz => rfl, ?_, ?_, ?_⟩
  · intro tz s h
    simp only [parseEmailDate]
    rw [if_pos h]
  · intro tz s r hne hr
    refine ⟨?_, runLoop_toISO tz _ r hr⟩
    simp only [parseEmailDate]
    rw [if_neg hne, hr]
  · intro tz s hne h
    simp only [parseEmailDate]
    rw [if_neg hne, h]

/-- Witness for C1 at concrete inputs: an absent input, a whitespace-only
input, a matching input (with surrounding whitespace, whose result is a
canonical instant) and an unmatched input returned verbatim. -/
theorem C1_witness :
    parseEmailDate 0 none = none ∧
    parseEmailDate 0 (some "   ") = none ∧
    parseEmailDate 0 (some " 1701592571 ") = some "2023-12-03T08:36:11.000Z" ∧
    parseEmailDate 0 (some "not a date at all") = some "not a date at all" := by
  refine ⟨C1_parseEmailDate_contract.1 0, C1_parseEmailDate_contract.2.1 0 "   " (by decide),
    (C1_parseEmailDate_contract.2.2.1 0 " 1701592571 " "2023-12-03T08:36:11.000Z"
      (by decide) (by decide)).1,
    C1_parseEmailDate_contract.2.2.2 0 "not a date at all" (by decide) (by decide)⟩

/-- C7: `parseEmailDate` is idempotent on its successful outputs: when
some recognizer succeeds on the trimmed input, applying `parseEmailDate`
to the result returns it unchanged (canonical instants re-parse to
themselves through the generic first recognizer). -/
theorem C7_parseEmailDate_idempotent :
    ∀ (tz : Int) (x r : String),
      runLoop (emailParsers tz) (jsTrim x.data) = some r →
      parseEmailDate tz (parseEmailDate tz (some x)) = parseEmailDate tz (some x) := by
  intro tz x r h
  have hne : jsTrim x.data ≠ [] := by
    intro hnil
    rw [hnil, runLoop_nil_input] at h
    cases h
  have hx : parseEmailDate tz (some x) = some r := by
    simp only [parseEmailDate]
    rw [if_neg hne, h]
  obtain ⟨m, hm1, hm2, rfl⟩ := runLoop_toISO tz _ r h
  rw [hx]
  exact parseEmailDate_toISO tz m hm1 hm2

/-- Witness for C7 at a concrete successful parse. -/
theorem C7_witness :
    runLoop (emailParsers 0) (jsTrim "1701592571".data) =
      some "2023-12-03T08:36:11.000Z" ∧
    parseEmailDate 0 (parseEmailDate 0 (some "1701592571")) =
      parseEmailDate 0 (some "1701592571") :=
  ⟨by decide, C7_parseEmailDate_idempotent 0 "1701592571" "2023-12-03T08:36:11.000Z" (by decide)⟩

/-- C8: the recognizer loop never surfaces an exception: its result type
has no error alternative, and a candidate that throws is caught and
treated exactly as a non-match, the loop continuing with the remaining
candidates (removing the throwing candidate changes nothing). -/
theorem C8_runLoop_swallows_errors :
    ∀ (ε : Type) (ps qs : List (List Char → Except ε (Option String)))
      (p : List Char → Except ε (Option String)) (s : List Char) (e : ε),
      p s = Except.error e →
      runLoop (ps ++ p :: qs) s = runLoop (ps ++ qs) s := by
  intro ε ps qs p s e hp
  induction ps with
  | nil =>
    simp only [List.nil_append, runLoop, hp]
  | cons a ps ih =>
    simp only [List.cons_append, runLoop]
    cases ha : a s with
    | error e2 => exact ih
    | ok o =>
      cases o with
      | none => exact ih
      | some r =>
        show (if r = "" then runLoop (ps ++ p :: qs) s else some r) =
          (if r = "" then runLoop (ps ++ qs) s else some r)
        by_cases he : r = ""
        · rw [if_pos he, if_pos he]
          exact ih
        · rw [if_neg he, if_neg he]

/-- Witness for C8: a loop containing a throwing candidate behaves as if
the candidate were absent, and in particular still reaches the later
successful candidate. -/
theorem C8_witness :
    (fun _ : List Char => (Except.error () : Except Unit (Option String))) ['a'] =
      Except.error () ∧
    runLoop (([fun _ => Except.ok none] : List (List Char → Except Unit (Option String))) ++
        (fun _ : List Char => (Except.error () : Except Unit (Option String))) ::
        [fun _ => Except.ok (some "x")]) ['a'] =
      runLoop (([fun _ => Except.ok none] : List (List Char → Except Unit (Option String))) ++
        [fun _ => Except.ok (some "x")]) ['a'] ∧
    runLoop (([fun _ => Except.ok none] : List (List Char → Except Unit (Option String))) ++
        (fun _ : List Char => (Except.error () : Except Unit (Option String))) ::
        [fun _ => Except.ok (some "x")]) ['a'] = some "x" :=
  ⟨rfl,
   C8_runLoop_swallows_errors Unit [fun _ => Except.ok none] [fun _ => Except.ok (some "x")]
     (fun _ => Except.error ()) ['a'] () rfl,
   rfl⟩

/-! ## Recognizer-failure helpers and digit-string facts -/

theorem p1_none (tz : Int) (l : List Char) (h : jsFieldsOf (jsTrim l) = none) :
    p1 tz l = none := by
  unfold p1 jsDateParseMs
  rw [h]
  rfl

theorem p2_none (tz : Int) (l : List Char) (h : m2 l = none) : p2 tz l = none := by
  unfold p2
  rw [h]
  rfl

theorem p3_none (tz : Int) (l : List Char) (h : m3 l = none) : p3 tz l = none := by
  unfold p3
  rw [h]
  rfl

theorem p4_none (tz : Int) (l : List Char) (h : m4 l = none) : p4 tz l = none := by
  unfold p4
  rw [h]
  rfl

theorem p6_none (tz : Int) (l : List Char) (h : m6 l = none) : p6 tz l = none := by
  unfold p6
  rw [h]
  rfl

/-- C4: the weekday-month-day-time-year shape with irregular spacing and
a single-digit hour is rejected by the generic recognizer, then
normalized by recognizer 2 (zero-padding day and hour, reassembling with
an assumed `+0000` offset) and read as 2025-12-03 07:56:11 UTC, for
every host-zone offset. -/
theorem C4_single_digit_hour :
    ∀ tz : Int, parseEmailDate tz (some "Wed Dec 03  7:56:11 2025") =
      some "2025-12-03T07:56:11.000Z" := by
  intro tz
  have e1 : p1 tz ("Wed Dec 03  7:56:11 2025".data) = none :=
    p1_none tz _ (by decide)
  have e2 : p2 tz ("Wed Dec 03  7:56:11 2025".data) = some "2025-12-03T07:56:11.000Z" := by
    unfold p2
    rw [show m2 ("Wed Dec 03  7:56:11 2025".data) =
      some ("Wed, 03 Dec 2025 07:56:11 +0000".data) from by decide]
    show (jsDateParseMs tz ("Wed, 03 Dec 2025 07:56:11 +0000".data)).map toISO = _
    unfold jsDateParseMs
    rw [show jsFieldsOf (jsTrim ("Wed, 03 Dec 2025 07:56:11 +0000".data)) =
      some ⟨2025, 12, 3, 7, 56, 11, 0, some 0, false⟩ from by decide]
    show (interpF tz ⟨2025, 12, 3, 7, 56, 11, 0, some 0, false⟩).map toISO = _
    rw [interpF_off_any tz 0 _ 0 rfl]
    decide
  simp only [parseEmailDate]
  rw [show jsTrim ("Wed Dec 03  7:56:11 2025".data) =
    ("Wed Dec 03  7:56:11 2025".data) from by decide]
  rw [if_neg (by decide : ¬("Wed Dec 03  7:56:11 2025".data = []))]
  rw [emailParsers_eq tz, runLoop_cons_ok_none _ _ _ e1,
    runLoop_cons_ok_some _ _ _ _ e2 (by decide)]

/-- C5: the Unix-timestamp recognizer accepts exactly the pure-digit
strings whose value is positive and below 4102444800000 (the year-2100
bound), interpreting values under 10^10 as seconds (scaled by 1000) and
larger values as milliseconds; out-of-range values fall through as
non-matches.  The ten-digit and thirteen-digit example inputs yield the
same canonical instant, for every host-zone offset. -/
theorem C5_unix_timestamps :
    (∀ ds : List Nat, ds ≠ [] → (∀ d ∈ ds, d < 10) →
      ((0 < (digitsVal (ds.map digCh) : Int) ∧
          (digitsVal (ds.map digCh) : Int) < 4102444800000 →
        p5 (ds.map digCh) = some (toISO (p5val (digitsVal (ds.map digCh))))) ∧
       (¬(0 < (digitsVal (ds.map digCh) : Int) ∧
          (digitsVal (ds.map digCh) : Int) < 4102444800000) →
        p5 (ds.map digCh) = none))) ∧
    (∀ n : Nat, (n : Int) < 10000000000 → p5val n = (n : Int) * 1000) ∧
    (∀ n : Nat, 10000000000 ≤ (n : Int) → p5val n = (n : Int)) ∧
    (∀ tz : Int, parseEmailDate tz (some "1701592571") =
      some "2023-12-03T08:36:11.000Z") ∧
    (∀ tz : Int, parseEmailDate tz (some "1701592571000") =
      some "2023-12-03T08:36:11.000Z") := by
  have hconc : ∀ (tz : Int) (s : String), jsTrim s.data = s.data → s.data ≠ [] →
      jsFieldsOf s.data = none → m2 s.data = none → m3 s.data = none →
      m4 s.data = none → p5 s.data = some "2023-12-03T08:36:11.000Z" →
      parseEmailDate tz (some s) = some "2023-12-03T08:36:11.000Z" := by
    intro tz s htr hne hf h2 h3 h4 h5
    simp only [parseEmailDate]
    rw [htr, if_neg hne, emailParsers_eq tz,
      runLoop_cons_ok_none _ _ _ (p1_none tz _ (by rw [htr]; exact hf)),
      runLoop_cons_ok_none _ _ _ (p2_none tz _ h2),
      runLoop_cons_ok_none _ _ _ (p3_none tz _ h3),
      runLoop_cons_ok_none _ _ _ (p4_none tz _ h4),
      runLoop_cons_ok_some _ _ _ _ h5 (by decide)]
  refine ⟨?_, ?_, ?_, ?_, ?_⟩
  · intro ds hne hlt
    have hws : ∀ c ∈ ds.map digCh, jsWs c = false := by
      intro c hc
      obtain ⟨d, hd, rfl⟩ := List.mem_map.mp hc
      exact digCh_not_ws d (hlt d hd)
    have htr : jsTrim (ds.map digCh) = ds.map digCh := jsTrim_of_all _ hws
    have hguard : ds.map digCh ≠ [] ∧ (ds.map digCh).all isDig = true := by
      refine ⟨by simpa using hne, ?_⟩
      rw [List.all_eq_true]
      intro c hc
      obtain ⟨d, hd, rfl⟩ := List.mem_map.mp hc
      exact digCh_isDig d (hlt d hd)
    constructor
    · intro hcond
      unfold p5
      rw [htr, if_pos hguard, if_pos hcond,
        if_pos (show -8640000000000000 ≤ p5val (digitsVal (ds.map digCh)) ∧
          p5val (digitsVal (ds.map digCh)) ≤ 8640000000000000 from by
            unfold p5val
            split <;> omega)]
    · intro hcond
      unfold p5
      rw [htr, if_pos hguard, if_neg hcond]
  · intro n h
    unfold p5val
    rw [if_pos h]
  · intro n h
    unfold p5val
    rw [if_neg (by omega)]
  · intro tz
    exact hconc tz "1701592571" (by decide) (by decide) (by decide) (by decide)
      (by decide) (by decide) (by decide)
  · intro tz
    exact hconc tz "1701592571000" (by decide) (by decide) (by decide) (by decide)
      (by decide) (by decide) (by decide)

/-- Witness for C5 at concrete digit strings, discharging the pure-digit
hypotheses on both the in-range and the rejected side. -/
theorem C5_witness :
    ([1, 7, 0, 1, 5, 9, 2, 5, 7, 1] : List Nat) ≠ [] ∧
    (∀ d ∈ ([1, 7, 0, 1, 5, 9, 2, 5, 7, 1] : List Nat), d < 10) ∧
    p5 (([1, 7, 0, 1, 5, 9, 2, 5, 7, 1] : List Nat).map digCh) =
      some (toISO (p5val 1701592571)) ∧
    p5 (([9, 9, 9, 9, 9, 9, 9, 9, 9, 9, 9, 9, 9, 9] : List Nat).map digCh) = none := by
  refine ⟨by decide, by decide, ?_, ?_⟩
  · have h := ((C5_unix_timestamps.1 [1, 7, 0, 1, 5, 9, 2, 5, 7, 1]
      (by decide) (by decide)).1 (by decide))
    rw [h]
    rw [show digitsVal (([1, 7, 0, 1, 5, 9, 2, 5, 7, 1] : List Nat).map digCh) =
      1701592571 from by decide]
  · exact (C5_unix_timestamps.1 [9, 9, 9, 9, 9, 9, 9, 9, 9, 9, 9, 9, 9, 9]
      (by decide) (by decide)).2 (by decide)

/-- C9: the regional renderer yields no value and raises nothing for
absent input and for any input the instant reader cannot interpret
(internal failure is an `isNaN` result, mapped to `null`). -/
theorem C9_renderer_absence :
    (∀ tz : Int, convertToCRTimezone tz none = none) ∧
    (∀ tz : Int, convertToCRTimezone tz (some "not-an-instant") = none) ∧
    (∀ (tz : Int) (s : String), jsDateParseMs tz s.data = none →
      convertToCRTimezone tz (some s) = none) := by
  refine ⟨fun tz => rfl, ?_, ?_⟩
  · intro tz
    show (jsDateParseMs tz ("not-an-instant".data)).map renderCR = none
    unfold jsDateParseMs
    rw [show jsFieldsOf (jsTrim ("not-an-instant".data)) = none from by decide]
    rfl
  · intro tz s h
    show (jsDateParseMs tz s.data).map renderCR = none
    rw [h]
    rfl

/-- Witness for C9 at a concrete uninterpretable input. -/
theorem C9_witness :
    jsDateParseMs 0 ("2025-99-99".data) = none ∧
    convertToCRTimezone 0 (some "2025-99-99") = none :=
  ⟨by decide, C9_renderer_absence.2.2 0 "2025-99-99" (by decide)⟩

/-! ## Offset normalization facts -/

theorem normDownF_le (fuel : Nat) : ∀ x : Int, x ≤ 720 + 1440 * (fuel : Int) →
    normDownF fuel x ≤ 720 := by
  induction fuel with
  | zero =>
    intro x h
    push_cast at h
    simpa [normDownF] using by omega
  | succ n ih =>
    intro x h
    simp only [normDownF]
    split
    · exact ih _ (by push_cast at h ⊢; omega)
    · omega

theorem normDownF_mod (fuel : Nat) : ∀ x : Int, normDownF fuel x % 1440 = x % 1440 := by
  induction fuel with
  | zero => intro x; rfl
  | succ n ih =>
    intro x
    simp only [normDownF]
    split
    · rw [ih]
      omega
    · rfl

theorem normDownF_ge (fuel : Nat) : ∀ x : Int, -720 ≤ x → -720 ≤ normDownF fuel x := by
  induction fuel with
  | zero => intro x h; exact h
  | succ n ih =>
    intro x h
    simp only [normDownF]
    split
    · exact ih _ (by omega)
    · exact h

theorem normUpF_ge (fuel : Nat) : ∀ x : Int, -x ≤ 720 + 1440 * (fuel : Int) →
    -720 ≤ normUpF fuel x := by
  induction fuel with
  | zero =>
    intro x h
    push_cast at h
    simpa [normUpF] using by omega
  | succ n ih =>
    intro x h
    simp only [normUpF]
    split
    · exact ih _ (by push_cast at h ⊢; omega)
    · omega

theorem normUpF_mod (fuel : Nat) : ∀ x : Int, normUpF fuel x % 1440 = x % 1440 := by
  induction fuel with
  | zero => intro x; rfl
  | succ n ih =>
    intro x
    simp only [normUpF]
    split
    · rw [ih]
      omega
    · rfl

theorem normUpF_le (fuel : Nat) : ∀ x : Int, x ≤ 720 → normUpF fuel x ≤ 720 := by
  induction fuel with
  | zero => intro x h; exact h
  | succ n ih =>
    intro x h
    simp only [normUpF]
    split
    · exact ih _ (by omega)
    · exact h

/-- The two `while` loops land in [-720, 720] and preserve the offset
modulo 1440. -/
theorem normalize_range_mod (x : Int) :
    -720 ≤ normUp (normDown x) ∧ normUp (normDown x) ≤ 720 ∧
    normUp (normDown x) % 1440 = x % 1440 := by
  have hdle : normDown x ≤ 720 := by
    apply normDownF_le
    push_cast
    omega
  have hdmod : normDown x % 1440 = x % 1440 := normDownF_mod _ x
  refine ⟨?_, normUpF_le _ _ hdle, by unfold normUp; rw [normUpF_mod, hdmod]⟩
  apply normUpF_ge
  push_cast
  omega

theorem minutes_of_day (A : Int) :
    A % 86400000 / 3600000 * 60 + A % 86400000 % 3600000 / 60000 = A / 60000 % 1440 := by
  omega

theorem crRawOffset_mod (t : Int) :
    crRawOffset t % 1440 = pragueOffMin t % 1440 := by
  have h1 : crHourN t * 60 + crMinuteN t = crLoc t / 60000 % 1440 := by
    unfold crHourN crMinuteN
    exact minutes_of_day (crLoc t)
  have h2 : utcHourN t * 60 + utcMinuteN t = t / 60000 % 1440 := by
    unfold utcHourN utcMinuteN
    exact minutes_of_day t
  have h3 : crLoc t / 60000 = t / 60000 + pragueOffMin t := by
    unfold crLoc
    rw [show t + 60000 * pragueOffMin t = t + pragueOffMin t * 60000 from by ring]
    exact Int.add_mul_ediv_right t (pragueOffMin t) (by norm_num)
  have h4 : (if crDayN t = utcDayN t then (0 : Int)
      else if utcDayN t < crDayN t then 1440 else -1440) % 1440 = 0 := by
    split
    · rfl
    · split <;> rfl
  unfold crRawOffset
  omega

theorem pragueOffMin_cases (t : Int) : pragueOffMin t = 60 ∨ pragueOffMin t = 120 := by
  unfold pragueOffMin
  split
  · right; rfl
  · left; rfl

/-- The renderer's computed, normalized offset equals the modelled
Europe/Prague offset at the instant. -/
theorem crOffsetMinutes_eq (t : Int) : crOffsetMinutes t = pragueOffMin t := by
  have hnr := normalize_range_mod (crRawOffset t)
  have hmod := crRawOffset_mod t
  have hoff := pragueOffMin_cases t
  unfold crOffsetMinutes
  omega

/-- Modelled from the spec: "Format the offset as a signed, zero-padded
4-digit HHMM string." -/
def specSignedHHMM (off : Int) : List Char :=
  (if 0 ≤ off then '+' else '-') :: pad2 (off.natAbs / 60) ++ pad2 (off.natAbs % 60)

theorem crOffsetChars_spec (t : Int) :
    crOffsetChars t = specSignedHHMM (crOffsetMinutes t) := rfl

/-- C3: for every valid instant the renderer's minutes-of-day difference
with day-rollover correction, normalized by the two `while` loops,
lands in [-720, 720] and in fact equals the modelled regional offset;
the zone abbreviation is `CEST` exactly when that normalized offset is
+120 minutes and `CET` for every other value; and the offset field is
the signed zero-padded 4-digit `HHMM` rendering of the normalized
offset. -/
theorem C3_offset_normalization :
    ∀ t : Int, -8640000000000000 ≤ t → t ≤ 8640000000000000 →
      crOffsetMinutes t = pragueOffMin t ∧
      -720 ≤ crOffsetMinutes t ∧ crOffsetMinutes t ≤ 720 ∧
      (crTzChars t = "CEST".data ↔ crOffsetMinutes t = 120) ∧
      (crTzChars t = "CET".data ↔ ¬ crOffsetMinutes t = 120) ∧
      crOffsetChars t = specSignedHHMM (crOffsetMinutes t) := by
  intro t h1 h2
  have hnr := normalize_range_mod (crRawOffset t)
  refine ⟨crOffsetMinutes_eq t, hnr.1, hnr.2.1, ?_, ?_, crOffsetChars_spec t⟩
  · constructor
    · intro h
      by_contra hne
      rw [show crTzChars t = ['C', 'E', 'T'] from by unfold crTzChars; rw [if_neg hne]] at h
      exact absurd h (by decide)
    · intro h
      unfold crTzChars
      rw [if_pos h]
  · constructor
    · intro h
      by_contra hne
      rw [show crTzChars t = ['C', 'E', 'S', 'T'] from by unfold crTzChars; rw [if_pos hne]] at h
      exact absurd h (by decide)
    · intro h
      unfold crTzChars
      rw [if_neg h]

/-- Witness for C3 at the concrete instant 2025-12-03T13:42:50Z. -/
theorem C3_witness :
    -8640000000000000 ≤ (1764769370000 : Int) ∧ (1764769370000 : Int) ≤ 8640000000000000 ∧
    (crOffsetMinutes 1764769370000 = pragueOffMin 1764769370000 ∧
     -720 ≤ crOffsetMinutes 1764769370000 ∧ crOffsetMinutes 1764769370000 ≤ 720 ∧
     (crTzChars 1764769370000 = "CEST".data ↔ crOffsetMinutes 1764769370000 = 120) ∧
     (crTzChars 1764769370000 = "CET".data ↔ ¬ crOffsetMinutes 1764769370000 = 120) ∧
     crOffsetChars 1764769370000 = specSignedHHMM (crOffsetMinutes 1764769370000)) :=
  ⟨by decide, by decide, C3_offset_normalization 1764769370000 (by decide) (by decide)⟩

/-- C2: the canonical instant 2025-12-03T13:42:50.000Z renders exactly
as `Wed, 03 Dec 2025 14:42:50 +0100 (CET)` for every host-zone offset,
and every valid instant inside the region's summer period renders with
the `+0200` offset field and the `(CEST)` abbreviation. -/
theorem C2_regional_rendering :
    (∀ tz : Int, convertToCRTimezone tz (some "2025-12-03T13:42:50.000Z") =
      some "Wed, 03 Dec 2025 14:42:50 +0100 (CET)") ∧
    (∀ t : Int, -8640000000000000 ≤ t → t ≤ 8640000000000000 → pragueDST t = true →
      crOffsetChars t = "+0200".data ∧ crTzChars t = "CEST".data ∧
      ∃ p : List Char, renderCR t = String.mk (p ++ " +0200 (CEST)".data)) := by
  constructor
  · intro tz
    show (jsDateParseMs tz ("2025-12-03T13:42:50.000Z".data)).map renderCR = _
    unfold jsDateParseMs
    rw [show jsFieldsOf (jsTrim ("2025-12-03T13:42:50.000Z".data)) =
      some ⟨2025, 12, 3, 13, 42, 50, 0, some 0, false⟩ from by decide]
    show (interpF tz ⟨2025, 12, 3, 13, 42, 50, 0, some 0, false⟩).map renderCR = _
    rw [interpF_off_any tz 0 _ 0 rfl]
    decide
  · intro t h1 h2 hdst
    have hoff : pragueOffMin t = 120 := by
      unfold pragueOffMin
      rw [hdst]
      rfl
    have hcom : crOffsetMinutes t = 120 := by rw [crOffsetMinutes_eq t, hoff]
    have hOffC : crOffsetChars t = "+0200".data := by
      unfold crOffsetChars
      rw [hcom]
      decide
    have hTzC : crTzChars t = "CEST".data := by
      unfold crTzChars
      rw [if_pos hcom]
    refine ⟨hOffC, hTzC, ?_⟩
    have hsplit : renderCR t = String.mk
        ((weekdayName ((crLoc t / 86400000 + 4) % 7).toNat ++ ',' :: ' ' ::
          pad2 (crDayN t).toNat ++ ' ' ::
          monthName (civilFromDay (crLoc t / 86400000)).2.1 ++ ' ' ::
          intRepr (civilFromDay (crLoc t / 86400000)).1 ++ ' ' ::
          pad2 (crHourN t).toNat ++ ':' :: pad2 (crMinuteN t).toNat ++ ':' ::
          pad2 (crSecondN t).toNat) ++
         (' ' :: (crOffsetChars t ++ ' ' :: '(' :: (crTzChars t ++ [')'])))) := by
      simp only [renderCR, List.append_assoc, List.cons_append]
    rw [hOffC, hTzC] at hsplit
    rw [show (' ' :: (("+0200".data : List Char) ++ ' ' :: '(' ::
      (("CEST".data : List Char) ++ [')']))) = " +0200 (CEST)".data from by decide] at hsplit
    exact ⟨_, hsplit⟩

/-- Witness for C2 at the concrete July instant 2025-07-15T12:00:00Z. -/
theorem C2_witness :
    -8640000000000000 ≤ (1752580800000 : Int) ∧ (1752580800000 : Int) ≤ 8640000000000000 ∧
    pragueDST 1752580800000 = true ∧
    (crOffsetChars 1752580800000 = "+0200".data ∧
     crTzChars 1752580800000 = "CEST".data ∧
     ∃ p : List Char, renderCR 1752580800000 = String.mk (p ++ " +0200 (CEST)".data)) :=
  ⟨by decide, by decide, by decide,
   C2_regional_rendering.2 1752580800000 (by decide) (by decide) (by decide)⟩

/-! ## Claim C6: offsetless ISO-like inputs -/

/-- The fields read from `"2025-12-03T07:56:11"` by the host date
parser: an offsetless date-time, interpreted in host local time. -/
def c6F : JsF := ⟨2025, 12, 3, 7, 56, 11, 0, none, false⟩

theorem c6_fields : jsFieldsOf (jsTrim "2025-12-03T07:56:11".data) = some c6F := by
  decide

theorem c6_fieldsMs : fieldsMs c6F = 1764748571000 := by decide

theorem c6_interp (tz : Int)
    (hlo : -8640000000000000 ≤ 1764748571000 - 60000 * tz)
    (hhi : 1764748571000 - 60000 * tz ≤ 8640000000000000) :
    interpF tz c6F = some (1764748571000 - 60000 * tz) := by
  have h : interpF tz c6F =
      if -8640000000000000 ≤ 1764748571000 - 60000 * tz ∧
          1764748571000 - 60000 * tz ≤ 8640000000000000 then
        some (1764748571000 - 60000 * tz)
      else none := by
    unfold interpF
    rw [if_pos (by decide : validF c6F = true)]
    rw [show c6F.off = none from rfl]
    rw [show (if c6F.dateOnly then (0 : Int) else tz) = tz from rfl]
    rw [c6_fieldsMs]
  rw [h, if_pos ⟨hlo, hhi⟩]

/-- C6 (corrected by C6_counterexample): the `T`-separated offsetless
ISO-like form is interpreted by the first recognizer (`new Date`) in the
HOST-LOCAL zone, not as UTC: at host offset `tz` minutes the returned
canonical instant is the written civil time minus `tz` minutes.  The
SPACE-separated offsetless form, by contrast, falls through to
recognizer 4, which appends `Z`, so it is interpreted as UTC at every
host offset. -/
theorem C6_iso_no_offset (tz : Int)
    (hlo : -8640000000000000 ≤ 1764748571000 - 60000 * tz)
    (hhi : 1764748571000 - 60000 * tz ≤ 8640000000000000) :
    parseEmailDate tz (some "2025-12-03T07:56:11") =
      some (toISO (1764748571000 - 60000 * tz)) ∧
    parseEmailDate tz (some "2025-12-03 07:56:11") =
      some "2025-12-03T07:56:11.000Z" := by
  constructor
  · have hp1 : p1 tz ("2025-12-03T07:56:11".data) =
        some (toISO (1764748571000 - 60000 * tz)) := by
      unfold p1 jsDateParseMs
      rw [show jsTrim "2025-12-03T07:56:11".data =
        jsTrim ("2025-12-03T07:56:11".data) from rfl]
      rw [c6_fields]
      rw [show (some c6F).bind (interpF tz) = interpF tz c6F from rfl]
      rw [c6_interp tz hlo hhi]
      rfl
    have hloop : runLoop (emailParsers tz) ("2025-12-03T07:56:11".data) =
        some (toISO (1764748571000 - 60000 * tz)) := by
      rw [emailParsers_eq tz]
      exact runLoop_cons_ok_some (p1 tz) _ _ _ hp1 (toISO_ne_empty _)
    simp only [parseEmailDate]
    rw [show jsTrim "2025-12-03T07:56:11".data = "2025-12-03T07:56:11".data from rfl]
    rw [if_neg (by decide : ¬("2025-12-03T07:56:11".data = []))]
    rw [hloop]
  · rfl

/-- C6 counterexample: at host offset +60 minutes (e.g. a machine in
CET), the offsetless `T`-form `"2025-12-03T07:56:11"` is parsed as local
time and comes back as `06:56:11Z`, not `07:56:11Z`: the claim that
every offsetless ISO-like input is interpreted as UTC is false. -/
theorem C6_counterexample :
    parseEmailDate 60 (some "2025-12-03T07:56:11") =
      some "2025-12-03T06:56:11.000Z" ∧
    parseEmailDate 60 (some "2025-12-03T07:56:11") ≠
      some "2025-12-03T07:56:11.000Z" ∧
    parseEmailDate 60 (some "2025-12-03 07:56:11") =
      some "2025-12-03T07:56:11.000Z" := by
  refine ⟨?_, ?_, ?_⟩ <;> decide

/-- Witness for C6_iso_no_offset at `tz = 60`. -/
theorem C6_witness :
    (-8640000000000000 ≤ 1764748571000 - 60000 * 60 ∧
      1764748571000 - 60000 * 60 ≤ 8640000000000000) ∧
    (parseEmailDate 60 (some "2025-12-03T07:56:11") =
        some (toISO (1764748571000 - 60000 * 60)) ∧
      parseEmailDate 60 (some "2025-12-03 07:56:11") =
        some "2025-12-03T07:56:11.000Z") :=
  ⟨⟨by decide, by decide⟩, C6_iso_no_offset 60 (by decide) (by decide)⟩

/-! ## Claim C10: shape of every successful recognizer output -/

/-- Modelled from the spec: the exact output format
`YYYY-MM-DDThh:mm:ss.sssZ` asserted for every successful recognizer —
exactly 24 characters, decimal digits in every numeric field, literal
`-`, `T`, `:`, `.` separators and a trailing `Z`. -/
def isCanonical24 (s : String) : Bool :=
  match s.data with
  | [a1, a2, a3, a4, '-', b1, b2, '-', c1, c2, 'T',
     e1, e2, ':', f1, f2, ':', g1, g2, '.', k1, k2, k3, 'Z'] =>
    [a1, a2, a3, a4, b1, b2, c1, c2, e1, e2, f1, f2, g1, g2, k1, k2, k3].all isDig
  | _ => false

theorem isCanonical24_explicit (a1 a2 a3 a4 b1 b2 c1 c2 e1 e2 f1 f2 g1 g2 k1 k2 k3 : Char) :
    isCanonical24 (String.mk (a1 :: a2 :: a3 :: a4 :: '-' :: b1 :: b2 :: '-' :: c1 :: c2 ::
      'T' :: e1 :: e2 :: ':' :: f1 :: f2 :: ':' :: g1 :: g2 :: '.' ::
      k1 :: k2 :: k3 :: ['Z'])) =
    [a1, a2, a3, a4, b1, b2, c1, c2, e1, e2, f1, f2, g1, g2, k1, k2, k3].all isDig := rfl

theorem isCanonical24_shape (ny mo d nh nmi ns nms : Nat) :
    isCanonical24 (String.mk (pad4 ny ++ '-' :: (pad2 mo ++ '-' :: (pad2 d ++ 'T' ::
      (pad2 nh ++ ':' :: (pad2 nmi ++ ':' ::
        (pad2 ns ++ '.' :: (pad3 nms ++ ['Z'])))))))) = true := by
  simp only [pad4, pad2, pad3, List.cons_append, List.nil_append]
  rw [isCanonical24_explicit]
  simp only [List.all_eq_true, List.mem_cons, List.not_mem_nil, or_false]
  rintro c (rfl | rfl | rfl | rfl | rfl | rfl | rfl | rfl | rfl | rfl | rfl | rfl | rfl |
    rfl | rfl | rfl | rfl)
  all_goals exact digCh_isDig _ (Nat.mod_lt _ (by omega))

theorem toISOChars_dotZ (m : Int) :
    ∃ p : List Char,
      toISOChars m = p ++ '.' :: (pad3 ((m % 86400000).toNat % 1000) ++ ['Z']) := by
  by_cases h4 : 0 ≤ (civilFromDay (m / 86400000)).1 ∧ (civilFromDay (m / 86400000)).1 ≤ 9999
  · refine ⟨pad4 (civilFromDay (m / 86400000)).1.toNat ++ '-' ::
      (pad2 (civilFromDay (m / 86400000)).2.1 ++ '-' ::
        (pad2 (civilFromDay (m / 86400000)).2.2.toNat ++ 'T' ::
          (pad2 ((m % 86400000).toNat / 3600000) ++ ':' ::
            (pad2 ((m % 86400000).toNat % 3600000 / 60000) ++ ':' ::
              pad2 ((m % 86400000).toNat % 60000 / 1000))))), ?_⟩
    rw [toISO_shape4 m h4]
    simp [List.append_assoc]
  · by_cases hneg : (civilFromDay (m / 86400000)).1 < 0
    · refine ⟨'-' :: (pad6 (-(civilFromDay (m / 86400000)).1).toNat ++ '-' ::
        (pad2 (civilFromDay (m / 86400000)).2.1 ++ '-' ::
          (pad2 (civilFromDay (m / 86400000)).2.2.toNat ++ 'T' ::
            (pad2 ((m % 86400000).toNat / 3600000) ++ ':' ::
              (pad2 ((m % 86400000).toNat % 3600000 / 60000) ++ ':' ::
                pad2 ((m % 86400000).toNat % 60000 / 1000)))))), ?_⟩
      rw [toISO_shape6neg m hneg]
      simp [List.append_assoc]
    · refine ⟨'+' :: (pad6 (civilFromDay (m / 86400000)).1.toNat ++ '-' ::
        (pad2 (civilFromDay (m / 86400000)).2.1 ++ '-' ::
          (pad2 (civilFromDay (m / 86400000)).2.2.toNat ++ 'T' ::
            (pad2 ((m % 86400000).toNat / 3600000) ++ ':' ::
              (pad2 ((m % 86400000).toNat % 3600000 / 60000) ++ ':' ::
                pad2 ((m % 86400000).toNat % 60000 / 1000)))))), ?_⟩
      rw [toISO_shape6pos m (by omega)]
      simp [List.append_assoc]

/-- C10 (corrected by C10_counterexample): every successful recognizer
result is the `toISOString` image of a clipped instant — so it always
carries millisecond precision and the zero-offset designator `Z`, and a
non-zero fixed-offset instant is never produced — but the exact 24-char
form `YYYY-MM-DDThh:mm:ss.sssZ` holds only when the rendered year lies
in 0..9999; expanded six-digit signed years break it. -/
theorem C10_canonical_output (tz : Int) (l : List Char) (r : String)
    (h : runLoop (emailParsers tz) l = some r) :
    ∃ m : Int, -8640000000000000 ≤ m ∧ m ≤ 8640000000000000 ∧ r = toISO m ∧
      (∃ p : List Char,
        r.data = p ++ '.' :: (pad3 ((m % 86400000).toNat % 1000) ++ ['Z'])) ∧
      ((0 ≤ (civilFromDay (m / 86400000)).1 ∧ (civilFromDay (m / 86400000)).1 ≤ 9999) →
        isCanonical24 r = true) := by
  obtain ⟨m, h1, h2, rfl⟩ := runLoop_toISO tz l r h
  refine ⟨m, h1, h2, rfl, ?_, ?_⟩
  · exact toISOChars_dotZ m
  · intro hy
    rw [show toISO m = String.mk (toISOChars m) from rfl]
    rw [toISO_shape4 m hy]
    exact isCanonical24_shape _ _ _ _ _ _ _

/-- `yearStartDays` is monotone: later years never start earlier. -/
theorem yearStartDays_mono (a b : Int) (h : a ≤ b) :
    yearStartDays a ≤ yearStartDays b := by
  simp only [yearStartDays]
  omega

/-- The year search is determined by its interval specification: the
fuelled iteration can be bypassed for any concretely bracketed year. -/
theorem yearFromDay_eq (z y : Int)
    (h1 : yearStartDays y ≤ z) (h2 : z < yearStartDays (y + 1)) :
    yearFromDay z = (y, z - yearStartDays y) := by
  rcases hp : yearFromDay z with ⟨a, d⟩
  have hinv := yearFromDay_inv z
  rw [hp] at hinv
  dsimp only at hinv
  have hsa := yearStartDays_succ a
  have h1a : yearStartDays a ≤ z := by omega
  have h2a : z < yearStartDays (a + 1) := by omega
  have hay : a = y := by
    rcases lt_trichotomy a y with hlt | heq | hgt
    · have := yearStartDays_mono (a + 1) y (by omega)
      omega
    · exact heq
    · have := yearStartDays_mono (y + 1) a (by omega)
      omega
  subst hay
  have hd : d = z - yearStartDays a := by omega
  rw [hd]

/-- The fields read from `"31 Dec 9999 23:59:59 -1200"` (RFC 2822 shape,
explicit `-1200` offset). -/
def c10F : JsF := ⟨9999, 12, 31, 23, 59, 59, 0, some (-720), false⟩

theorem c10_fields :
    jsFieldsOf (jsTrim "31 Dec 9999 23:59:59 -1200".data) = some c10F := by decide

theorem c10_interp : interpF 0 c10F = some 253402343999000 := by decide

theorem c10_div : (253402343999000 : Int) / 86400000 = 2932897 := by decide

theorem c10_civil : civilFromDay 2932897 = (10000, 1, 1) := by
  have h := yearFromDay_eq 2932897 10000 (by decide) (by decide)
  have h2 : yearFromDay 2932897 = (10000, 0) := by rw [h]; decide
  simp only [civilFromDay]
  rw [h2]
  decide

theorem c10_toISO : toISO 253402343999000 = "+010000-01-01T11:59:59.000Z" := by
  have hc : 9999 < (civilFromDay ((253402343999000 : Int) / 86400000)).1 := by
    rw [c10_div, c10_civil]
    decide
  have h6 := toISO_shape6pos 253402343999000 hc
  rw [c10_div, c10_civil] at h6
  rw [show toISO 253402343999000 = String.mk (toISOChars 253402343999000) from rfl]
  rw [h6]
  decide

/-- A successful recognizer run determines the `parseEmailDate` result,
without evaluating the loop. -/
theorem parseEmailDate_of_runLoop (tz : Int) (s r : String)
    (hne : ¬ jsTrim s.data = [])
    (h : runLoop (emailParsers tz) (jsTrim s.data) = some r) :
    parseEmailDate tz (some s) = some r := by
  simp only [parseEmailDate]
  rw [if_neg hne, h]

/-- C10 counterexample: the in-range input `"31 Dec 9999 23:59:59 -1200"`
is accepted by the first recognizer and rendered with an ECMA-262
expanded year: the output `"+010000-01-01T11:59:59.000Z"` is not of the
exact form `YYYY-MM-DDThh:mm:ss.sssZ`. -/
theorem C10_counterexample :
    runLoop (emailParsers 0) ("31 Dec 9999 23:59:59 -1200".data) =
      some "+010000-01-01T11:59:59.000Z" ∧
    parseEmailDate 0 (some "31 Dec 9999 23:59:59 -1200") =
      some "+010000-01-01T11:59:59.000Z" ∧
    isCanonical24 "+010000-01-01T11:59:59.000Z" = false := by
  have hp1 : p1 0 ("31 Dec 9999 23:59:59 -1200".data) =
      some (toISO 253402343999000) := by
    unfold p1 jsDateParseMs
    rw [c10_fields]
    rw [show (some c10F).bind (interpF 0) = interpF 0 c10F from rfl]
    rw [c10_interp]
    rfl
  have hloop : runLoop (emailParsers 0) ("31 Dec 9999 23:59:59 -1200".data) =
      some (toISO 253402343999000) := by
    rw [emailParsers_eq 0]
    exact runLoop_cons_ok_some (p1 0) _ _ _ hp1 (toISO_ne_empty _)
  refine ⟨?_, ?_, by decide⟩
  · rw [hloop, c10_toISO]
  · refine parseEmailDate_of_runLoop 0 _ _ (by decide) ?_
    rw [show jsTrim "31 Dec 9999 23:59:59 -1200".data =
      "31 Dec 9999 23:59:59 -1200".data from rfl]
    rw [hloop, c10_toISO]

/-- Witness for C10_canonical_output: recognizer 5 succeeds on
`"1701592571"` at host offset 0. -/
theorem C10_witness :
    runLoop (emailParsers 0) ("1701592571".data) = some "2023-12-03T08:36:11.000Z" ∧
    ∃ m : Int, -8640000000000000 ≤ m ∧ m ≤ 8640000000000000 ∧
      "2023-12-03T08:36:11.000Z" = toISO m ∧
      (∃ p : List Char,
        "2023-12-03T08:36:11.000Z".data =
          p ++ '.' :: (pad3 ((m % 86400000).toNat % 1000) ++ ['Z'])) ∧
      ((0 ≤ (civilFromDay (m / 86400000)).1 ∧ (civilFromDay (m / 86400000)).1 ≤ 9999) →
        isCanonical24 "2023-12-03T08:36:11.000Z" = true) :=
  ⟨by decide, C10_canonical_output 0 ("1701592571".data) _ (by decide)⟩
